import Mathlib

/-!
Verification of the news-aggregator repository (feed_parser.py, unified_parser.py,
weather_parser.py, html_generator.py, main.py) against its natural-language
specification.  The Python code is shallowly embedded: JSON values and
dynamically-typed payload fields become the inductive `PyVal`; operations that can
raise Python exceptions return `Except PyErr _`; `datetime` parsing/formatting is
modelled by executable calendar arithmetic (local timezone modelled as UTC, which no
claim depends on); network calls become explicit `Except`-valued inputs.
-/

set_option maxHeartbeats 1000000
set_option maxRecDepth 8000

namespace News

/-- Python exception classes that the embedded code can raise or catch.
`requestError` covers `requests.exceptions.RequestException` and its subclasses
(HTTPError from `raise_for_status`, and JSONDecodeError from `response.json()`,
which subclasses RequestException in requests >= 2.27). -/
inductive PyErr where
  | requestError
  | valueError
  | typeError
  | keyError
  | attributeError
  | indexError
  deriving Repr, DecidableEq

/-- Dynamically typed Python/JSON value: numbers (int and float collapsed to `Rat`,
their decimal rendering is not relied on by any claim), strings, lists, dicts
(insertion-ordered association lists, as Python dicts are), and `None`. -/
inductive PyVal where
  | vnum (q : Rat)
  | vstr (s : String)
  | vlist (xs : List PyVal)
  | vdict (fields : List (String × PyVal))
  | vnone

namespace PyVal

/-- Models Python `v == (s : str)`: equality comparisons across types are `False`
in Python (they never raise), and string equality is structural. -/
def eqStr : PyVal → String → Bool
  | vstr s, t => s = t
  | _, _ => false

/-- Python truthiness: `None`, `0`, `""`, `[]`, `{}` are falsy, everything else truthy. -/
def truthy : PyVal → Bool
  | vnum q => q != 0
  | vstr s => s != ""
  | vlist xs => !xs.isEmpty
  | vdict fs => !fs.isEmpty
  | vnone => false

/-- First-key lookup in a dict's field list (JSON object keys are unique in practice). -/
def lookupField : List (String × PyVal) → String → Option PyVal
  | [], _ => none
  | (k, v) :: rest, key => if k = key then some v else lookupField rest key

/-- Models `x.get(key, default)`: only dicts have a `get` attribute; calling it on a
list, string, number or `None` raises `AttributeError`. -/
def getd : PyVal → String → PyVal → Except PyErr PyVal
  | vdict fs, key, dflt =>
    match lookupField fs key with
    | some v => .ok v
    | none => .ok dflt
  | _, _, _ => .error .attributeError

/-- Models `x[key]` subscription with a string key: dicts raise `KeyError` when the
key is missing; lists and strings raise `TypeError` for string indices; numbers and
`None` are not subscriptable (`TypeError`). -/
def getItem : PyVal → String → Except PyErr PyVal
  | vdict fs, key =>
    match lookupField fs key with
    | some v => .ok v
    | none => .error .keyError
  | _, _ => .error .typeError

/-- Models `x[0]`: first element of a list (IndexError when empty), first character
of a string (IndexError when empty), `KeyError` for a dict, `TypeError` otherwise. -/
def index0 : PyVal → Except PyErr PyVal
  | vlist [] => .error .indexError
  | vlist (x :: _) => .ok x
  | vstr s =>
    match s.data with
    | [] => .error .indexError
    | c :: _ => .ok (vstr (String.mk [c]))
  | vdict _ => .error .keyError
  | _ => .error .typeError

/-- Models `for x in v`: lists iterate elements, strings iterate one-character
strings, dicts iterate their keys; numbers and `None` are not iterable. -/
def iterate : PyVal → Except PyErr (List PyVal)
  | vlist xs => .ok xs
  | vstr s => .ok (s.data.map fun c => vstr (String.mk [c]))
  | vdict fs => .ok (fs.map fun p => vstr p.1)
  | _ => .error .typeError

/-- Models `v > (q : number)`: defined for numbers, raises `TypeError` for every
other operand type (Python 3 forbids ordering comparisons across these types). -/
def gtNum : PyVal → Rat → Except PyErr Bool
  | vnum x, q => .ok (decide (q < x))
  | _, _ => .error .typeError

/-- Models Python `str(v)` as used by f-string interpolation.  Decimal rendering of
non-integral floats is simplified to `num/den` (no claim depends on it);
strings render as themselves, `None` as `"None"`. -/
def pyRepr : PyVal → String
  | vnum q => if q.den = 1 then toString q.num else toString q.num ++ "/" ++ toString q.den
  | vstr s => s
  | vlist _ => "[...]"
  | vdict _ => "\x7b...\x7d"
  | vnone => "None"

end PyVal

/-- The `FeedEntry` dataclass of feed_parser.py (lines 6-24): the normalized record
produced by every adapter. -/
structure FeedEntry where
  title : String
  content : String
  published : String
  link : Option String := none
  source : Option String := none
  category : Option String := none
  deriving Repr, DecidableEq

/-- Python truthiness of an `Optional[str]` field (`None` and `""` are falsy). -/
def optTruthy : Option String → Bool
  | none => false
  | some s => s != ""

/-- A naive (tz-unaware) Python `datetime` value, with the default field values
that `datetime.strptime` uses for directives absent from the format. -/
structure DT where
  year : Int := 1900
  month : Nat := 1
  day : Nat := 1
  hour : Nat := 0
  minute : Nat := 0
  second : Nat := 0
  tzMinutes : Option Int := none
  deriving Repr, DecidableEq

namespace DT

/-- Gregorian leap-year test. -/
def isLeap (y : Int) : Bool := (y % 4 == 0 && y % 100 != 0) || y % 400 == 0

/-- Number of days in a month (month in 1..12). -/
def daysInMonth (y : Int) (m : Nat) : Nat :=
  if m = 2 then (if isLeap y then 29 else 28)
  else if m = 4 ∨ m = 6 ∨ m = 9 ∨ m = 11 then 30
  else 31

/-- Convert a count of days since the Unix epoch to a civil (year, month, day),
by the standard era-based algorithm. -/
def civilFromDays (days : Int) : Int × Nat × Nat :=
  let z := days + 719468
  let era := Int.fdiv z 146097
  let doe : Nat := (z - era * 146097).toNat
  let yoe : Nat := (doe - doe / 1460 + doe / 36524 - doe / 146096) / 365
  let y : Int := (yoe : Int) + era * 400
  let doy : Nat := doe - (365 * yoe + yoe / 4 - yoe / 100)
  let mp : Nat := (5 * doy + 2) / 153
  let d : Nat := doy - (153 * mp + 2) / 5 + 1
  let m : Nat := if mp < 10 then mp + 3 else mp - 9
  (if m ≤ 2 then y + 1 else y, m, d)

/-- Convert a civil (year, month, day) to days since the Unix epoch. -/
def daysFromCivil (y : Int) (m d : Nat) : Int :=
  let y2 := if m ≤ 2 then y - 1 else y
  let era := Int.fdiv y2 400
  let yoe : Nat := (y2 - era * 400).toNat
  let mp : Nat := if 2 < m then m - 3 else m + 9
  let doy : Nat := (153 * mp + 2) / 5 + d - 1
  let doe : Nat := yoe * 365 + yoe / 4 - yoe / 100 + doy
  era * 146097 + (doe : Int) - 719468

/-- Day of the week of a `DT`, 0 = Sunday (1970-01-01 was a Thursday). -/
def weekday (dt : DT) : Nat :=
  ((daysFromCivil dt.year dt.month dt.day + 4) % 7).toNat

/-- Zero-pad a natural number to the given width. -/
def padNum (width n : Nat) : String :=
  let s := toString n
  String.mk (List.replicate (width - s.length) '0') ++ s

/-- Render a year, zero-padded to 4 digits as CPython's strftime does on Linux. -/
def renderYear (y : Int) : String :=
  if y < 0 then "-" ++ padNum 4 (-y).toNat else padNum 4 y.toNat

/-- Full weekday names indexed by `weekday` (0 = Sunday). -/
def dayNamesFull : List String :=
  ["Sunday", "Monday", "Tuesday", "Wednesday", "Thursday", "Friday", "Saturday"]

/-- Abbreviated weekday names indexed by `weekday` (0 = Sunday). -/
def dayNamesAbbr : List String :=
  ["Sun", "Mon", "Tue", "Wed", "Thu", "Fri", "Sat"]

/-- Full month names indexed by month number minus one. -/
def monthNamesFull : List String :=
  ["January", "February", "March", "April", "May", "June", "July", "August",
   "September", "October", "November", "December"]

/-- Abbreviated month names indexed by month number minus one. -/
def monthNamesAbbr : List String :=
  ["Jan", "Feb", "Mar", "Apr", "May", "Jun", "Jul", "Aug", "Sep", "Oct", "Nov", "Dec"]

/-- Expansion of a single strftime directive. -/
def directive (dt : DT) (c : Char) : String :=
  if c = 'Y' then renderYear dt.year
  else if c = 'm' then padNum 2 dt.month
  else if c = 'd' then padNum 2 dt.day
  else if c = 'H' then padNum 2 dt.hour
  else if c = 'M' then padNum 2 dt.minute
  else if c = 'S' then padNum 2 dt.second
  else if c = 'A' then (dayNamesFull.getD dt.weekday "")
  else if c = 'a' then (dayNamesAbbr.getD dt.weekday "")
  else if c = 'B' then (monthNamesFull.getD (dt.month - 1) "")
  else if c = 'b' then (monthNamesAbbr.getD (dt.month - 1) "")
  else if c = 'I' then padNum 2 (if dt.hour % 12 = 0 then 12 else dt.hour % 12)
  else if c = 'p' then (if dt.hour < 12 then "AM" else "PM")
  else if c = '%' then "%"
  else "%" ++ String.mk [c]

/-- Models `datetime.strftime`: expands `%`-directives over the format string.
Directives the embedded code never renders with are passed through verbatim. -/
def strftimeRun (dt : DT) : List Char → String
  | [] => ""
  | '%' :: c :: rest => directive dt c ++ strftimeRun dt rest
  | '%' :: [] => "%"
  | c :: rest => String.mk [c] ++ strftimeRun dt rest

/-- Models `dt.strftime(fmt)`. -/
def strftime (dt : DT) (fmt : String) : String := strftimeRun dt fmt.data

/-- Models `datetime.fromtimestamp(t)` truncated to whole seconds, with the local
timezone modelled as UTC (the real code's output depends on the host timezone;
no claim depends on which timezone is in effect). -/
def fromtimestamp (t : Int) : DT :=
  let days := Int.fdiv t 86400
  let sod : Nat := (t - days * 86400).toNat
  let c := civilFromDays days
  { year := c.1, month := c.2.1, day := c.2.2,
    hour := sod / 3600, minute := sod / 60 % 60, second := sod % 60 }

end DT

namespace Strptime

/-- One token of a compiled strptime format: a literal character, a whitespace run
(`\s+` in the compiled regex), or a `%`-directive. -/
inductive FmtTok where
  | lit (c : Char)
  | ws
  | dir (c : Char)
  deriving Repr, DecidableEq

/-- Directives this model interprets; every directive appearing in the repository's
format strings is included.  An unsupported directive makes the whole format fail,
which is faithful: CPython raises `ValueError` ("bad directive") there, and every
call site in the repository treats a `ValueError` as a failed parse. -/
def supportedDirs : List Char :=
  ['Y', 'm', 'd', 'H', 'M', 'S', 'I', 'p', 'a', 'A', 'b', 'B', 'z', '%']

/-- Compile a format string into tokens (`none` models `ValueError` on a bad or
dangling `%`-directive). -/
def fmtToks : List Char → Option (List FmtTok)
  | [] => some []
  | '%' :: c :: rest =>
    if c ∈ supportedDirs then (fmtToks rest).map (.dir c :: ·) else none
  | ['%'] => none
  | c :: rest =>
    (fmtToks rest).map ((if c.isWhitespace then .ws else .lit c) :: ·)

/-- A repeated directive letter makes the compiled regex redefine a group name,
which CPython reports as a `ValueError`. -/
def hasDupDir (ts : List FmtTok) : Bool :=
  let ds := ts.filterMap fun t => match t with
    | .dir c => if c = '%' then none else some c
    | _ => none
  ds.length ≠ ds.eraseDups.length

/-- Fields captured during matching, mirroring `_strptime`'s found-group dict. -/
structure Acc where
  y : Option Nat := none
  mo : Option Nat := none
  d : Option Nat := none
  h : Option Nat := none
  i : Option Nat := none
  pm : Option Bool := none
  mi : Option Nat := none
  s : Option Nat := none
  tz : Option Int := none
  deriving Repr, DecidableEq

/-- Numeric value of a decimal digit character. -/
def digitVal (c : Char) : Nat := c.toNat - 48

/-- Case-insensitive match of a lowercase pattern against an input prefix,
returning the remaining input (the compiled strptime regex uses IGNORECASE). -/
def matchCI : List Char → List Char → Option (List Char)
  | [], cs => some cs
  | p :: ps, c :: cs => if c.toLower = p then matchCI ps cs else none
  | _ :: _, [] => none

/-- Candidates for a 1-2 digit numeric directive, listed in the order of the
alternatives of the corresponding `_strptime` regex fragment (two-digit
alternatives first), each paired with the remaining input. -/
def numCands (hiTens : Nat → Bool) (hiOnes : Nat → Nat → Bool) (loOk : Nat → Bool)
    (oneOk : Nat → Bool) (cs : List Char) : List (Nat × List Char) :=
  (match cs with
   | a :: b :: rest =>
     if a.isDigit ∧ b.isDigit ∧ hiTens (digitVal a) ∧ hiOnes (digitVal a) (digitVal b) ∧
        loOk (10 * digitVal a + digitVal b) then
       [(10 * digitVal a + digitVal b, rest)]
     else []
   | _ => []) ++
  (match cs with
   | a :: rest => if a.isDigit ∧ oneOk (digitVal a) then [(digitVal a, rest)] else []
   | _ => [])

/-- Candidates for `%z`: `±HHMM`, `±HH:MM` (optionally followed by `:SS`), or a
case-sensitive literal `Z`, as in the `_strptime` timezone regex. -/
def zCands (cs : List Char) : List (Int × List Char) :=
  match cs with
  | sign :: a :: b :: rest =>
    if (sign = '+' ∨ sign = '-') ∧ a.isDigit ∧ b.isDigit then
      let hh := 10 * digitVal a + digitVal b
      let sgn : Int := if sign = '-' then -1 else 1
      let afterColon := match rest with
        | ':' :: c :: d :: rest2 =>
          if c.isDigit ∧ d.isDigit then
            let mm := 10 * digitVal c + digitVal d
            (match rest2 with
             | ':' :: e :: f :: rest3 =>
               if e.isDigit ∧ f.isDigit then [(sgn * (hh * 60 + mm), rest3)] else []
             | _ => []) ++ [(sgn * (hh * 60 + mm), rest2)]
          else []
        | _ => []
      let plain := match rest with
        | c :: d :: rest2 =>
          if c.isDigit ∧ d.isDigit then
            [(sgn * (hh * 60 + (10 * digitVal c + digitVal d)), rest2)]
          else []
        | _ => []
      afterColon ++ plain
    else []
  | _ => []
  |>.append (match cs with
    | 'Z' :: rest => [(0, rest)]
    | _ => [])

/-- Candidates for one name out of a list (months, weekdays, AM/PM), tried
longest-first as `_strptime` orders its alternations; `v` is the captured value
for the name at the same index. -/
def nameCands (names : List String) (vals : List Nat) (cs : List Char) :
    List (Nat × List Char) :=
  let paired := (names.zip vals).map fun p => (p.1.data.map Char.toLower, p.2)
  let sorted := paired.insertionSort fun x y => y.1.length ≤ x.1.length
  sorted.filterMap fun p => (matchCI p.1 cs).map fun rest => (p.2, rest)

/-- All candidate (accumulator, remaining-input) pairs for one directive, in the
order the backtracking regex engine would try them. -/
def dirCands (c : Char) (acc : Acc) (cs : List Char) : List (Acc × List Char) :=
  if c = 'Y' then
    match cs with
    | a :: b :: d :: e :: rest =>
      if a.isDigit ∧ b.isDigit ∧ d.isDigit ∧ e.isDigit then
        [({ acc with y := some (1000 * digitVal a + 100 * digitVal b +
            10 * digitVal d + digitVal e) }, rest)]
      else []
    | _ => []
  else if c = 'm' then
    (numCands (· ≤ 1) (fun a b => a = 0 → 1 ≤ b) (· ≤ 12) (1 ≤ ·) cs).map
      fun p => ({ acc with mo := some p.1 }, p.2)
  else if c = 'd' then
    (numCands (· ≤ 3) (fun a b => a = 0 → 1 ≤ b) (· ≤ 31) (1 ≤ ·) cs).map
      fun p => ({ acc with d := some p.1 }, p.2)
  else if c = 'H' then
    (numCands (· ≤ 2) (fun _ _ => True) (· ≤ 23) (fun _ => True) cs).map
      fun p => ({ acc with h := some p.1 }, p.2)
  else if c = 'I' then
    (numCands (· ≤ 1) (fun a b => a = 0 → 1 ≤ b) (· ≤ 12) (1 ≤ ·) cs).map
      fun p => ({ acc with i := some p.1 }, p.2)
  else if c = 'M' then
    (numCands (· ≤ 5) (fun _ _ => True) (· ≤ 59) (fun _ => True) cs).map
      fun p => ({ acc with mi := some p.1 }, p.2)
  else if c = 'S' then
    (numCands (· ≤ 6) (fun a b => a = 6 → b ≤ 1) (· ≤ 61) (fun _ => True) cs).map
      fun p => ({ acc with s := some p.1 }, p.2)
  else if c = 'p' then
    (nameCands ["AM", "PM"] [0, 1] cs).map
      fun p => ({ acc with pm := some (p.1 = 1) }, p.2)
  else if c = 'a' then
    (nameCands DT.dayNamesAbbr [0, 1, 2, 3, 4, 5, 6] cs).map fun p => (acc, p.2)
  else if c = 'A' then
    (nameCands DT.dayNamesFull [0, 1, 2, 3, 4, 5, 6] cs).map fun p => (acc, p.2)
  else if c = 'b' then
    (nameCands DT.monthNamesAbbr [1, 2, 3, 4, 5, 6, 7, 8, 9, 10, 11, 12] cs).map
      fun p => ({ acc with mo := some p.1 }, p.2)
  else if c = 'B' then
    (nameCands DT.monthNamesFull [1, 2, 3, 4, 5, 6, 7, 8, 9, 10, 11, 12] cs).map
      fun p => ({ acc with mo := some p.1 }, p.2)
  else if c = 'z' then
    (zCands cs).map fun p => ({ acc with tz := some p.1 }, p.2)
  else if c = '%' then
    match cs with
    | '%' :: rest => [(acc, rest)]
    | _ => []
  else []

/-- Candidates for a whitespace run (`\s+`), greedy-first as the regex engine
backtracks. -/
def wsCands (acc : Acc) (cs : List Char) : List (Acc × List Char) :=
  let run := (cs.takeWhile Char.isWhitespace).length
  (List.range run).map fun i => (acc, cs.drop (run - i))

/-- Backtracking matcher over the compiled tokens; requires the whole input to be
consumed, as `_strptime` rejects unconverted leading or trailing data. -/
def matchToks : List FmtTok → Acc → List Char → Option Acc
  | [], acc, cs => if cs.isEmpty then some acc else none
  | .lit c :: ts, acc, cs =>
    match cs with
    | d :: rest => if d.toLower = c.toLower then matchToks ts acc rest else none
    | [] => none
  | .ws :: ts, acc, cs => (wsCands acc cs).findSome? fun p => matchToks ts p.1 p.2
  | .dir c :: ts, acc, cs => (dirCands c acc cs).findSome? fun p => matchToks ts p.1 p.2

/-- Resolve the captured fields into a `DT`, applying `_strptime`'s defaults and
its 12-hour/AM-PM resolution, then the `datetime` constructor's range checks
(`none` models the `ValueError` CPython raises for e.g. February 30th or a leap
second). -/
def finish (acc : Acc) : Option DT :=
  let year : Int := (acc.y.getD 1900 : Nat)
  let month := acc.mo.getD 1
  let day := acc.d.getD 1
  let hour : Nat :=
    match acc.h with
    | some h => h
    | none =>
      match acc.i with
      | some i =>
        if acc.pm = some true then (if i = 12 then 12 else i + 12)
        else (if i = 12 then 0 else i)
      | none => 0
  let minute := acc.mi.getD 0
  let second := acc.s.getD 0
  if 1 ≤ day ∧ day ≤ DT.daysInMonth year month ∧ hour ≤ 23 ∧ minute ≤ 59 ∧ second ≤ 59 then
    some { year := year, month := month, day := day, hour := hour, minute := minute,
           second := second, tzMinutes := acc.tz }
  else none

end Strptime

/-- Models `datetime.strptime(s, fmt)`: `none` stands for the `ValueError` raised
on a failed parse, a bad directive, or an out-of-range date. -/
def strptime (s fmt : String) : Option DT :=
  match Strptime.fmtToks fmt.data with
  | none => none
  | some ts =>
    if Strptime.hasDupDir ts then none
    else
      match Strptime.matchToks ts {} s.data with
      | none => none
      | some acc => Strptime.finish acc

namespace Clean

/-- Whitespace as matched by `\s` in Python's `re` on `str` and stripped by
`str.strip()`: ASCII whitespace plus NBSP (further Unicode whitespace characters
exist but none is touched by any theorem). -/
def pyIsSpaceChar (c : Char) : Bool :=
  c = ' ' ∨ c = '\t' ∨ c = '\n' ∨ c = '\r' ∨ c = '\x0b' ∨ c = '\x0c' ∨ c = '\xa0'

/-- Models `re.sub(r'<[^>]+>', '', _)`: leftmost non-overlapping matches of a `<`,
one or more non-`>` characters, and a `>` are removed.  Written with an explicit
fuel argument (one unit per consumed character) to stay structurally recursive;
`stripTags` below supplies sufficient fuel. -/
def stripTagsF : Nat → List Char → List Char
  | 0, l => l
  | _ + 1, [] => []
  | fuel + 1, c :: rest =>
    if c = '<' then
      let inner := rest.takeWhile (· ≠ '>')
      if inner.length ≠ 0 ∧ inner.length < rest.length then
        stripTagsF fuel (rest.drop (inner.length + 1))
      else c :: stripTagsF fuel rest
    else c :: stripTagsF fuel rest

/-- Tag-stripping stage of `clean_content`. -/
def stripTags (l : List Char) : List Char := stripTagsF l.length l

/-- The named character references this model of `html.unescape` resolves;
a subset of the WHATWG table sufficient for every string any theorem evaluates
(semicolon-less legacy forms included, as in the real table). -/
def namedEntities : List (String × String) :=
  [("amp;", "&"), ("lt;", "<"), ("gt;", ">"), ("quot;", "\""), ("apos;", "'"),
   ("nbsp;", "\xa0"), ("amp", "&"), ("lt", "<"), ("gt", ">"), ("quot", "\"")]

/-- Characters allowed in a named reference by `html._charref`: `[^\t\n\f <&#;]`. -/
def entityNameChar (c : Char) : Bool :=
  ¬ (c = '\t' ∨ c = '\n' ∨ c = '\x0c' ∨ c = ' ' ∨ c = '<' ∨ c = '&' ∨ c = '#' ∨ c = ';')

/-- Longest-prefix lookup of a captured reference name, as `html._replace_charref`
does (prefixes are tried from the whole capture down to length 2); returns the
replacement and the number of characters consumed. -/
def longestEntity (cand : List Char) : Option (String × Nat) :=
  (List.range (cand.length - 1)).findSome? fun i =>
    let p := cand.take (cand.length - i)
    (namedEntities.find? (fun e => e.1.data = p)).map fun e => (e.2, p.length)

/-- Value of a hexadecimal digit character. -/
def hexVal (c : Char) : Nat :=
  if c.isDigit then c.toNat - 48
  else if 'a' ≤ c ∧ c ≤ 'f' then c.toNat - 87
  else c.toNat - 55

/-- Character for a numeric reference code point; out-of-range and surrogate code
points are replaced as CPython does (the Windows-1252 remapping table for
`0x80-0x9f` is not modelled; no theorem evaluates a numeric reference). -/
def charOfCode (n : Nat) : List Char :=
  if n < 0xd800 ∨ 0xdfff < n ∧ n < 0x110000 then [Char.ofNat n] else ['�']

/-- Models `html.unescape`: scans for `&`-references (named, decimal `&#n;`, hex
`&#xn;`) and replaces them; unrecognized references are left unchanged.  Fuel as
in `stripTagsF`. -/
def unescapeF : Nat → List Char → List Char
  | 0, l => l
  | _ + 1, [] => []
  | fuel + 1, c :: rest =>
    if c = '&' then
      match rest with
      | '#' :: more =>
        let ishex : Bool := match more with
          | x :: _ => x = 'x' ∨ x = 'X'
          | [] => false
        let body := if ishex then more.drop 1 else more
        let digs := body.takeWhile (fun d =>
          if ishex then d.isDigit ∨ ('a' ≤ d.toLower ∧ d.toLower ≤ 'f') else d.isDigit)
        if digs.length = 0 then c :: unescapeF fuel rest
        else
          let n := digs.foldl (fun a d => (if ishex then 16 else 10) * a + hexVal d) 0
          let afterDigs := body.drop digs.length
          let consumed := (if ishex then 1 else 0) + 1 + digs.length +
            (match afterDigs with | ';' :: _ => 1 | _ => 0)
          charOfCode n ++ unescapeF fuel (rest.drop consumed)
      | _ =>
        let run := (rest.takeWhile entityNameChar).take 32
        if run.length = 0 then c :: unescapeF fuel rest
        else
          let cand := match rest.drop run.length with
            | ';' :: _ => run ++ [';']
            | _ => run
          match longestEntity cand with
          | some st => st.1.data ++ unescapeF fuel (rest.drop st.2)
          | none => c :: unescapeF fuel rest
    else c :: unescapeF fuel rest

/-- Entity-decoding stage of `clean_content`. -/
def unescape (l : List Char) : List Char := unescapeF l.length l

/-- Models `re.sub(r'\s+', ' ', _)`: each maximal whitespace run becomes one
space.  Equivalent structural formulation: a whitespace character followed by
another whitespace character is dropped, any other whitespace character becomes
a space. -/
def collapseWS : List Char → List Char
  | [] => []
  | [c] => if pyIsSpaceChar c then [' '] else [c]
  | c :: d :: rest =>
    if pyIsSpaceChar c then
      if pyIsSpaceChar d then collapseWS (d :: rest) else ' ' :: collapseWS (d :: rest)
    else c :: collapseWS (d :: rest)

/-- Models `str.strip()`. -/
def pyStrip (l : List Char) : List Char :=
  ((l.dropWhile pyIsSpaceChar).reverse.dropWhile pyIsSpaceChar).reverse

end Clean

/-- The `FeedParser.clean_content` helper (feed_parser.py lines 65-84): strip
`<...>` tags, decode HTML entities, collapse whitespace runs to single spaces,
strip leading and trailing whitespace. -/
def clean_content (content : String) : String :=
  String.mk (Clean.pyStrip (Clean.collapseWS (Clean.unescape (Clean.stripTags content.data))))

/-- The `FeedParser.format_date` helper (feed_parser.py lines 86-109): try each
candidate format in order, render the first successful parse canonically, echo
the input unchanged when every candidate fails. -/
def format_date (dateStr : String) : List String → String
  | [] => dateStr
  | fmt :: rest =>
    match strptime dateStr fmt with
    | some d => d.strftime "%Y-%m-%d %H:%M"
    | none => format_date dateStr rest

/-- An HTTP response as `requests` presents it to the adapters: a status code and
a decoded JSON body (`none` models a body that fails to decode — `requests`
raises `JSONDecodeError`, a `RequestException` subclass since requests 2.27). -/
structure HttpResponse where
  statusCode : Nat
  body : Option PyVal

/-- Lower a Python value into an `Optional[str]`-typed `FeedEntry` field: `None`
maps to `none`, anything else to its `str()` rendering.  (Non-string truthy
values keep Python's dynamic value instead; no claim evaluates one.) -/
def pyToOptStr : PyVal → Option String
  | .vnone => none
  | v => some v.pyRepr

namespace UnifiedNewsParser

/-- The single date format `parse_newsapi` tries (unified_parser.py line 103). -/
def isoFormat : String := "%Y-%m-%dT%H:%M:%SZ"

/-- The published-date computation of `parse_newsapi` (unified_parser.py lines
100-108): a falsy `publishedAt` or a `ValueError` from `strptime` yields the
literal `"No date available"`; a non-string truthy value makes `strptime` raise
`TypeError`, which no handler there catches. -/
def newsapiPublished (v : PyVal) : Except PyErr String :=
  if v.truthy = false then .ok "No date available"
  else
    match v with
    | .vstr s =>
      match strptime s isoFormat with
      | some d => .ok (d.strftime "%Y-%m-%d %H:%M")
      | none => .ok "No date available"
    | _ => .error .typeError

/-- The loop body of `parse_newsapi` (unified_parser.py lines 98-120) for one
article value. -/
def newsapiArticleEntry (name : String) (article : PyVal) : Except PyErr FeedEntry := do
  let publishedRaw ← article.getd "publishedAt" (.vstr "")
  let published ← newsapiPublished publishedRaw
  let description ← article.getd "description" .vnone
  let contentV ← article.getd "content" .vnone
  let content := if description.truthy then description
    else if contentV.truthy then contentV
    else PyVal.vstr "No content available"
  let titleV ← article.getd "title" (.vstr "No title")
  let urlV ← article.getd "url" (.vstr "")
  let sourceV ← article.getd "source" (.vdict [])
  let sourceName ← sourceV.getd "name" (.vstr "Unknown")
  .ok { title := titleV.pyRepr,
        content := content.pyRepr,
        published := published,
        link := pyToOptStr urlV,
        source := some (name ++ " - " ++ sourceName.pyRepr),
        category := some name }

/-- The body of the `try` block of `parse_newsapi` (unified_parser.py lines
80-122).  `net` stands for `requests.get(self.url, params=params)` (the params
dict — key, and country filter for top-headlines — does not affect this model,
which takes the response as input); a network-level failure is a
`RequestException`. -/
def parseNewsapiInner (name : String) (net : Except PyErr HttpResponse) :
    Except PyErr (List FeedEntry) := do
  let resp ← net
  if 400 ≤ resp.statusCode then throw .requestError
  let data ← match resp.body with
    | some v => pure v
    | none => throw .requestError
  let status ← data.getd "status" .vnone
  if ¬ status.eqStr "ok" then return []
  let articles ← data.getItem "articles"
  let articleList ← articles.iterate
  articleList.mapM (newsapiArticleEntry name)

/-- The `UnifiedNewsParser.parse_newsapi` method (unified_parser.py lines 60-126):
a falsy API key short-circuits to `[]` with no network call; only
`requests.exceptions.RequestException` is caught by the `except` clause — any
other exception escapes the adapter. -/
def parse_newsapi (apiKey : Option String) (name : String)
    (net : Except PyErr HttpResponse) : Except PyErr (List FeedEntry) :=
  if optTruthy apiKey = false then .ok []
  else
    match parseNewsapiInner name net with
    | .error .requestError => .ok []
    | r => r

end UnifiedNewsParser

namespace WeatherParser

/-- The current-conditions record built by `extract_weather_data`
(weather_parser.py lines 28-40); formatted timestamps are strings, the other
fields carry the upstream values through unchanged. -/
structure CurrentWeather where
  timestamp : String
  sunrise : String
  sunset : String
  temp : PyVal
  feels_like : PyVal
  pressure : PyVal
  humidity : PyVal
  wind_speed : PyVal
  wind_deg : PyVal
  description : PyVal
  main : PyVal

/-- One element of the daily-forecast list built by `extract_weather_data`
(weather_parser.py lines 45-57). -/
structure DailyData where
  date : String
  summary : PyVal
  temp_day : PyVal
  temp_min : PyVal
  temp_max : PyVal
  humidity : PyVal
  description : PyVal
  main : PyVal
  rain : PyVal
  snow : PyVal
  pop : PyVal

/-- One element of the hourly-forecast list built by `extract_weather_data`
(weather_parser.py lines 63-70). -/
structure HourlyData where
  timestamp : String
  temp : PyVal
  feels_like : PyVal
  humidity : PyVal
  description : PyVal
  pop : PyVal

/-- The record returned by `extract_weather_data` (weather_parser.py lines 73-78). -/
structure WeatherData where
  location : PyVal × PyVal × PyVal
  current : CurrentWeather
  daily_forecast : List DailyData
  hourly_forecast : List HourlyData

/-- Models `datetime.fromtimestamp(v).strftime(fmt)`: a non-numeric argument
raises `TypeError`; fractional seconds are truncated by the directives in use. -/
def fromtimestampVal (v : PyVal) (fmt : String) : Except PyErr String :=
  match v with
  | .vnum q => .ok ((DT.fromtimestamp q.floor).strftime fmt)
  | _ => .error .typeError

/-- Models the slice `v[:24]`: lists and strings slice, dicts and the rest raise
`TypeError`. -/
def slice24 : PyVal → Except PyErr PyVal
  | .vlist xs => .ok (.vlist (xs.take 24))
  | .vstr s => .ok (.vstr (String.mk (s.data.take 24)))
  | _ => .error .typeError

/-- The daily-forecast loop body of `extract_weather_data` (weather_parser.py
lines 44-58). -/
def extractDaily (day : PyVal) : Except PyErr DailyData := do
  let dtv ← day.getd "dt" (.vnum 0)
  let date ← fromtimestampVal dtv "%Y-%m-%d"
  let summary ← day.getd "summary" (.vstr "")
  let tempD ← day.getd "temp" (.vdict [])
  let temp_day ← tempD.getd "day" .vnone
  let temp_min ← tempD.getd "min" .vnone
  let temp_max ← tempD.getd "max" .vnone
  let humidity ← day.getd "humidity" .vnone
  let weatherArr ← day.getd "weather" (.vlist [.vdict []])
  let w0 ← weatherArr.index0
  let description ← w0.getd "description" (.vstr "")
  let mainV ← w0.getd "main" (.vstr "")
  let rain ← day.getd "rain" (.vnum 0)
  let snow ← day.getd "snow" (.vnum 0)
  let pop ← day.getd "pop" (.vnum 0)
  .ok { date := date, summary := summary, temp_day := temp_day, temp_min := temp_min,
        temp_max := temp_max, humidity := humidity, description := description,
        main := mainV, rain := rain, snow := snow, pop := pop }

/-- The hourly-forecast loop body of `extract_weather_data` (weather_parser.py
lines 62-71). -/
def extractHourly (hour : PyVal) : Except PyErr HourlyData := do
  let dtv ← hour.getd "dt" (.vnum 0)
  let timestamp ← fromtimestampVal dtv "%Y-%m-%d %H:%M"
  let temp ← hour.getd "temp" .vnone
  let feels_like ← hour.getd "feels_like" .vnone
  let humidity ← hour.getd "humidity" .vnone
  let weatherArr ← hour.getd "weather" (.vlist [.vdict []])
  let w0 ← weatherArr.index0
  let description ← w0.getd "description" (.vstr "")
  let pop ← hour.getd "pop" (.vnum 0)
  .ok { timestamp := timestamp, temp := temp, feels_like := feels_like,
        humidity := humidity, description := description, pop := pop }

/-- The `WeatherParser.extract_weather_data` method (weather_parser.py lines
17-78). -/
def extract_weather_data (weather_json : PyVal) : Except PyErr WeatherData := do
  let lat ← weather_json.getd "lat" .vnone
  let lon ← weather_json.getd "lon" .vnone
  let tzv ← weather_json.getd "timezone" .vnone
  let current ← weather_json.getd "current" (.vdict [])
  let dtv ← current.getd "dt" (.vnum 0)
  let timestamp ← fromtimestampVal dtv "%Y-%m-%d %H:%M:%S"
  let sunriseV ← current.getd "sunrise" (.vnum 0)
  let sunrise ← fromtimestampVal sunriseV "%H:%M"
  let sunsetV ← current.getd "sunset" (.vnum 0)
  let sunset ← fromtimestampVal sunsetV "%H:%M"
  let temp ← current.getd "temp" .vnone
  let feels_like ← current.getd "feels_like" .vnone
  let pressure ← current.getd "pressure" .vnone
  let humidity ← current.getd "humidity" .vnone
  let wind_speed ← current.getd "wind_speed" .vnone
  let wind_deg ← current.getd "wind_deg" .vnone
  let weatherArr ← current.getd "weather" (.vlist [.vdict []])
  let w0 ← weatherArr.index0
  let description ← w0.getd "description" (.vstr "")
  let mainV ← w0.getd "main" (.vstr "")
  let dailyV ← weather_json.getd "daily" (.vlist [])
  let dailyList ← dailyV.iterate
  let daily ← dailyList.mapM extractDaily
  let hourlyV ← weather_json.getd "hourly" (.vlist [])
  let hourlySliced ← slice24 hourlyV
  let hourlyList ← hourlySliced.iterate
  let hourly ← hourlyList.mapM extractHourly
  .ok { location := (lat, lon, tzv),
        current := { timestamp := timestamp, sunrise := sunrise, sunset := sunset,
                     temp := temp, feels_like := feels_like, pressure := pressure,
                     humidity := humidity, wind_speed := wind_speed,
                     wind_deg := wind_deg, description := description, main := mainV },
        daily_forecast := daily, hourly_forecast := hourly }

/-- The `WeatherParser.format_current_weather` method (weather_parser.py lines
80-90): a pure f-string over the current-conditions fields (never raises). -/
def format_current_weather (current : CurrentWeather) : String :=
  "\n        <div class=\"weather-current\">\n            " ++
  "<p><strong>Current Conditions:</strong> " ++ current.main.pyRepr ++ " - " ++
  current.description.pyRepr ++ "</p>\n            " ++
  "<p>Temperature: " ++ current.temp.pyRepr ++ "°F (Feels like: " ++
  current.feels_like.pyRepr ++ "°F)</p>\n            " ++
  "<p>Wind: " ++ current.wind_speed.pyRepr ++ " mph</p>\n            " ++
  "<p>Humidity: " ++ current.humidity.pyRepr ++ "%</p>\n            " ++
  "<p>Sunrise: " ++ current.sunrise ++ ", Sunset: " ++ current.sunset ++
  "</p>\n        </div>\n        "

/-- Models Python `int()` truncation toward zero of a rational. -/
def pyTrunc (q : Rat) : Int := if q < 0 then -((-q).floor) else q.floor

/-- The loop body of `WeatherParser.format_daily_forecast` (weather_parser.py
lines 95-113) for one forecast day: `datetime.strptime(day['date'], ...)` can
raise `ValueError` and the `day['pop'] > 0` comparisons raise `TypeError` on
non-numeric values — both escape to `parse`'s handler. -/
def dayForecastBlock (day : DailyData) : Except PyErr String := do
  let dayName ← match strptime day.date "%Y-%m-%d" with
    | some d => pure (d.strftime "%A")
    | none => throw PyErr.valueError
  let popPos ← day.pop.gtNum 0
  let precip1 ← if popPos then do
      let q ← match day.pop with
        | .vnum q => pure q
        | _ => throw PyErr.typeError
      pure ["Chance of precipitation: " ++ toString (pyTrunc (q * 100)) ++ "%"]
    else pure []
  let rainPos ← day.rain.gtNum 0
  let precip2 := if rainPos then ["Rain: " ++ day.rain.pyRepr ++ "mm"] else []
  let snowPos ← day.snow.gtNum 0
  let precip3 := if snowPos then ["Snow: " ++ day.snow.pyRepr ++ "mm"] else []
  let precip := precip1 ++ precip2 ++ precip3
  let precipHtml := if precip.isEmpty then ""
    else "<p>" ++ String.intercalate ", " precip ++ "</p>"
  pure ("\n            <div class=\"weather-day\">\n                <h3>" ++
    dayName ++ "</h3>\n                <p>" ++ day.main.pyRepr ++ ": " ++
    day.description.pyRepr ++ "</p>\n                <p>High: " ++
    day.temp_max.pyRepr ++ "°F, Low: " ++ day.temp_min.pyRepr ++
    "°F</p>\n                " ++ precipHtml ++ "\n            </div>\n            ")

/-- The `WeatherParser.format_daily_forecast` method (weather_parser.py lines
92-115): renders the first five days and joins the blocks with newlines. -/
def format_daily_forecast (daily : List DailyData) : Except PyErr String := do
  let blocks ← (daily.take 5).mapM dayForecastBlock
  return String.intercalate "\n" blocks

/-- The `WeatherParser.parse` method (weather_parser.py lines 117-160).  `net`
stands for the network step (`requests.get` + `raise_for_status` +
`response.json()`); `nowStr` stands for `datetime.now().strftime('%Y-%m-%d
%H:%M:%S')`.  The `try` block appends the current-conditions entry before the
forecast entry is built, and the `except` clause returns whatever was
accumulated, so a failure inside `format_daily_forecast` yields a 1-element
list. -/
def parse (net : Except PyErr PyVal) (nowStr : String) : List FeedEntry :=
  match net with
  | .error _ => []
  | .ok wjson =>
    match extract_weather_data wjson with
    | .error _ => []
    | .ok wd =>
      let e1 : FeedEntry :=
        { title := "Current Weather Conditions",
          content := format_current_weather wd.current,
          published := wd.current.timestamp,
          source := some "OpenWeather", category := some "Weather" }
      match format_daily_forecast wd.daily_forecast with
      | .error _ => [e1]
      | .ok fc =>
        [e1, { title := "5-Day Weather Forecast", content := fc, published := nowStr,
               source := some "OpenWeather", category := some "Weather" }]

end WeatherParser

namespace HTMLGenerator

/-- The configured category priority list (html_generator.py line 39). -/
def category_order : List String := ["Weather", "US News"]

/-- The embedded stylesheet `self.css` (html_generator.py lines 42-104). -/
def css : String :=
  "\n            body \x7b\n                font-family: Arial, sans-serif;\n                max-width: 800px;\n                margin: 0 auto;\n                padding: 20px;\n                background-color: #f5f5f5;\n            \x7d\n            .section \x7b\n                margin-bottom: 40px;\n            \x7d\n            .section-title \x7b\n                text-align: center;\n                color: #333;\n                padding: 20px;\n                background-color: #fff;\n                border-radius: 5px;\n                margin-bottom: 20px;\n                box-shadow: 0 2px 5px rgba(0,0,0,0.1);\n            \x7d\n            .entry \x7b\n                background-color: #fff;\n                padding: 20px;\n                margin-bottom: 20px;\n                border-radius: 5px;\n                box-shadow: 0 2px 5px rgba(0,0,0,0.1);\n            \x7d\n            .entry-title \x7b\n                color: #2c3e50;\n                margin-top: 0;\n            \x7d\n            .entry-meta \x7b\n                color: #7f8c8d;\n                font-size: 0.9em;\n                margin-bottom: 10px;\n            \x7d\n            .entry-content \x7b\n                color: #34495e;\n                line-height: 1.6;\n            \x7d\n            .entry-link \x7b\n                display: inline-block;\n                margin-top: 10px;\n                color: #3498db;\n                text-decoration: none;\n            \x7d\n            .entry-link:hover \x7b\n                text-decoration: underline;\n            \x7d\n            .timestamp \x7b\n                text-align: center;\n                color: #95a5a6;\n                font-size: 0.8em;\n                margin-top: 20px;\n            \x7d\n            .weather-section \x7b\n                background-color: #fff;\n                padding: 20px;\n                border-radius: 5px;\n                margin-bottom: 40px;\n                box-shadow: 0 2px 5px rgba(0,0,0,0.1);\n            \x7d\n        "

/-- Fallback applied by `entry.title or "No Title"` and the like on a `str` field
(the empty string is the only falsy `str`). -/
def strOr (s dflt : String) : String := if s ≠ "" then s else dflt

/-- Fallback applied by `entry.source or "Unknown Source"` on an `Optional[str]`
field. -/
def optOr (v : Option String) (dflt : String) : String :=
  match v with
  | some s => if s ≠ "" then s else dflt
  | none => dflt

/-- The `content_display` computation of `generate_entry_html` (html_generator.py
line 124): content longer than 500 characters is cut to its first 500 plus an
ellipsis marker. -/
def contentDisplay (content : String) : String :=
  if 500 < content.length then content.take 500 ++ "..." else content

/-- The `link_html` computation of `generate_entry_html` (html_generator.py line
127): an anchor only when `entry.link` is truthy. -/
def linkHtml (entry : FeedEntry) : String :=
  if optTruthy entry.link then
    "<a class=\"entry-link\" href=\"" ++ entry.link.getD "" ++
    "\" target=\"_blank\">Read more →</a>"
  else ""

/-- The `HTMLGenerator.generate_entry_html` method (html_generator.py lines
106-140). -/
def generate_entry_html (entry : FeedEntry) : String :=
  let title := strOr entry.title "No Title"
  let content := strOr entry.content "No content available"
  let published := strOr entry.published "No date"
  let source := optOr entry.source "Unknown Source"
  "\n        <div class=\"entry\">\n            <h2 class=\"entry-title\">" ++ title ++
  "</h2>\n            <div class=\"entry-meta\">\n                " ++ published ++
  " | Source: " ++ source ++
  "\n            </div>\n            <div class=\"entry-content\">\n                " ++
  contentDisplay content ++ "\n            </div>\n            " ++ linkHtml entry ++
  "\n        </div>\n        "

/-- The grouping key of `generate_html` (html_generator.py line 162):
`entry.category or "Uncategorized"`. -/
def entryCategory (e : FeedEntry) : String :=
  match e.category with
  | some c => if c ≠ "" then c else "Uncategorized"
  | none => "Uncategorized"

/-- Append an entry to its group in an insertion-ordered association list, as
appending to `categories[category]` in a Python dict does (html_generator.py
lines 160-165). -/
def insertGrouped (key : String) (e : FeedEntry) :
    List (String × List FeedEntry) → List (String × List FeedEntry)
  | [] => [(key, [e])]
  | (k, es) :: rest =>
    if k = key then (k, es ++ [e]) :: rest else (k, es) :: insertGrouped key e rest

/-- The category grouping of `generate_html` (html_generator.py lines 160-165). -/
def groupByCategory (entries : List FeedEntry) : List (String × List FeedEntry) :=
  entries.foldl (fun m e => insertGrouped (entryCategory e) e m) []

/-- Key lookup in an insertion-ordered association list (`category in categories`
followed by `categories[category]`). -/
def lookupGroup : List (String × List FeedEntry) → String → Option (List FeedEntry)
  | [], _ => none
  | (k, es) :: rest, key => if k = key then some es else lookupGroup rest key

/-- The first section loop of `generate_html` (html_generator.py lines 171-180):
walk the priority list, emit each present category and delete it from the dict;
returns the emitted sections and the remaining dict (whose iteration order is
Python's insertion order). -/
def prioritySections (groups : List (String × List FeedEntry)) :
    List String → List (String × List FeedEntry) × List (String × List FeedEntry)
  | [] => ([], groups)
  | c :: rest =>
    match lookupGroup groups c with
    | some es =>
      let r := prioritySections (groups.filter fun p => ¬ p.1 = c) rest
      ((c, es) :: r.1, r.2)
    | none => prioritySections groups rest

/-- The full section sequence `generate_html` renders, in order: priority
categories first, then the remaining groups in first-seen order. -/
def sections (entries : List FeedEntry) : List (String × List FeedEntry) :=
  let pr := prioritySections (groupByCategory entries) category_order
  pr.1 ++ pr.2

/-- A section block emitted by the priority loop (html_generator.py lines
173-178). -/
def sectionBlockA (category : String) (es : List FeedEntry) : String :=
  "\n                <div class=\"section\">\n                    <h1 class=\"section-title\">" ++
  category ++ "</h1>\n                    " ++
  String.join (es.map generate_entry_html) ++
  "\n                </div>\n                "

/-- A section block emitted by the remaining-categories loop (html_generator.py
lines 184-189). -/
def sectionBlockB (category : String) (es : List FeedEntry) : String :=
  "\n            <div class=\"section\">\n                <h1 class=\"section-title\">" ++
  category ++ "</h1>\n                " ++
  String.join (es.map generate_entry_html) ++
  "\n            </div>\n            "

/-- The `HTMLGenerator.generate_html` method (html_generator.py lines 142-206);
`nowStr` stands for `datetime.now().strftime("%Y-%m-%d %H:%M:%S")`. -/
def generate_html (entries : List FeedEntry) (title nowStr : String) : String :=
  let pr := prioritySections (groupByCategory entries) category_order
  let sections_html :=
    String.join (pr.1.map fun p => sectionBlockA p.1 p.2) ++
    String.join (pr.2.map fun p => sectionBlockB p.1 p.2)
  "\n        <!DOCTYPE html>\n        <html>\n        <head>\n            <title>" ++
  title ++ "</title>\n            <meta charset=\"utf-8\">\n            <style>" ++
  css ++ "</style>\n        </head>\n        <body>\n            " ++ sections_html ++
  "\n            <div class=\"timestamp\">\n                Generated on " ++ nowStr ++
  "\n            </div>\n        </body>\n        </html>\n        "

/-- Models the attribute access `entry.published.strftime(...)` on the
string-typed `published` field (html_generator.py line 303): Python `str` has no
`strftime` attribute, so this raises `AttributeError` for every string and
every format. -/
def strftimeOnStr (_s _fmt : String) : Except PyErr String := .error .attributeError

/-- Rendering of `entry.link` by f-string interpolation: `str(None)` is the text
`"None"`. -/
def optStr : Option String → String
  | some s => s
  | none => "None"

/-- The per-entry block of `_generate_feed_html` (html_generator.py lines
300-307), given the already-formatted date string; the entry's content is
interpolated in full (no truncation). -/
def feedEntryBlock (entry : FeedEntry) (dateStr : String) : String :=
  "\n                <div class=\"entry\">\n                    <h2><a href=\"" ++
  optStr entry.link ++ "\" target=\"_blank\">" ++ entry.title ++
  "</a></h2>\n                    <div class=\"date\">" ++ dateStr ++
  "</div>\n                    <div class=\"content\">" ++ entry.content ++
  "</div>\n                    <a href=\"" ++ optStr entry.link ++
  "\" class=\"read-more\" target=\"_blank\">Read more →</a>\n                </div>\n            "

/-- The fixed header of `_generate_feed_html` (html_generator.py lines 210-297). -/
def feedHtmlHeader (title source_name : String) : String :=
  "\n        <!DOCTYPE html>\n        <html lang=\"en\">\n        <head>\n            <meta charset=\"UTF-8\">\n            <meta name=\"viewport\" content=\"width=device-width, initial-scale=1.0\">\n            <title>" ++
  title ++ " - " ++ source_name ++
  "</title>\n            <style>\n                body \x7b\n                    font-family: -apple-system, BlinkMacSystemFont, \"Segoe UI\", Roboto, \"Helvetica Neue\", Arial, sans-serif;\n                    line-height: 1.6;\n                    margin: 0;\n                    padding: 20px;\n                    background: #f5f5f5;\n                \x7d\n                .container \x7b\n                    max-width: 800px;\n                    margin: 0 auto;\n                    background: white;\n                    padding: 20px;\n                    border-radius: 8px;\n                    box-shadow: 0 2px 4px rgba(0,0,0,0.1);\n                \x7d\n                h1 \x7b\n                    color: #333;\n                    border-bottom: 2px solid #eee;\n                    padding-bottom: 10px;\n                    margin-bottom: 20px;\n                \x7d\n                .entry \x7b\n                    margin-bottom: 20px;\n                    padding-bottom: 20px;\n                    border-bottom: 1px solid #eee;\n                \x7d\n                .entry:last-child \x7b\n                    border-bottom: none;\n                \x7d\n                .entry h2 \x7b\n                    margin: 0 0 10px 0;\n                    color: #2c3e50;\n                \x7d\n                .entry h2 a \x7b\n                    color: #2c3e50;\n                    text-decoration: none;\n                \x7d\n                .entry h2 a:hover \x7b\n                    color: #3498db;\n                \x7d\n                .entry .date \x7b\n                    color: #7f8c8d;\n                    font-size: 0.9em;\n                    margin-bottom: 10px;\n                \x7d\n                .entry .content \x7b\n                    color: #444;\n                \x7d\n                .entry .content img \x7b\n                    max-width: 100%;\n                    height: auto;\n                    border-radius: 4px;\n                    margin: 10px 0;\n                \x7d\n                .read-more \x7b\n                    display: inline-block;\n                    margin-top: 10px;\n                    color: #3498db;\n                    text-decoration: none;\n                    font-weight: 500;\n                \x7d\n                .read-more:hover \x7b\n                    text-decoration: underline;\n                \x7d\n                .back-link \x7b\n                    display: inline-block;\n                    margin-bottom: 20px;\n                    color: #3498db;\n                    text-decoration: none;\n                \x7d\n                .back-link:hover \x7b\n                    text-decoration: underline;\n                \x7d\n            </style>\n        </head>\n        <body>\n            <div class=\"container\">\n                <a href=\"index.html\" class=\"back-link\">← Back to Dashboard</a>\n                <h1>" ++
  title ++ " - " ++ source_name ++ "</h1>\n        "

/-- The `HTMLGenerator._generate_feed_html` method (html_generator.py lines
208-314): for each entry the f-string evaluates
`entry.published.strftime('%B %d, %Y %I:%M %p')`, which raises `AttributeError`
on the string-typed `published` field before anything is emitted for that
entry. -/
def generate_feed_html (entries : List FeedEntry) (title source_name : String) :
    Except PyErr String := do
  let blocks ← entries.mapM fun e => do
    let d ← strftimeOnStr e.published "%B %d, %Y %I:%M %p"
    pure (feedEntryBlock e d)
  pure (feedHtmlHeader title source_name ++ String.join blocks ++
    "\n            </div>\n        </body>\n        </html>\n        ")

/-- The weather-entry block of `_generate_index_html` (html_generator.py lines
404-409). -/
def indexEntryBlock (entry : FeedEntry) : String :=
  "\n                    <div class=\"entry\">\n                        <h3>" ++
  entry.title ++ "</h3>\n                        <div class=\"content\">" ++
  entry.content ++ "</div>\n                    </div>\n                "

/-- The feed-link block of `_generate_index_html` (html_generator.py lines
418-423). -/
def feedLinkBlock (name filename : String) : String :=
  "\n                    <a href=\"" ++ filename ++
  "\" class=\"feed-link\">\n                        <h3>" ++ name ++
  "</h3>\n                        <p>View latest news from " ++ name ++
  "</p>\n                    </a>\n            "

/-- The `HTMLGenerator._generate_index_html` method (html_generator.py lines
316-435); `nowStr` stands for `datetime.now().strftime('%B %d, %Y %I:%M %p')`.
It only interpolates strings, so it never raises. -/
def generate_index_html (weather_entries : List FeedEntry)
    (feed_links : List (String × String)) (nowStr : String) : String :=
  "\n        <!DOCTYPE html>\n        <html lang=\"en\">\n        <head>\n            <meta charset=\"UTF-8\">\n            <meta name=\"viewport\" content=\"width=device-width, initial-scale=1.0\">\n            <title>News Dashboard</title>\n            <style>\n                body \x7b\n                    font-family: -apple-system, BlinkMacSystemFont, \"Segoe UI\", Roboto, \"Helvetica Neue\", Arial, sans-serif;\n                    line-height: 1.6;\n                    margin: 0;\n                    padding: 20px;\n                    background: #f5f5f5;\n                \x7d\n                .container \x7b\n                    max-width: 800px;\n                    margin: 0 auto;\n                    background: white;\n                    padding: 20px;\n                    border-radius: 8px;\n                    box-shadow: 0 2px 4px rgba(0,0,0,0.1);\n                \x7d\n                h1 \x7b\n                    color: #333;\n                    border-bottom: 2px solid #eee;\n                    padding-bottom: 10px;\n                    margin-bottom: 20px;\n                \x7d\n                .weather-section \x7b\n                    margin-bottom: 30px;\n                    padding: 20px;\n                    background: #f8f9fa;\n                    border-radius: 8px;\n                \x7d\n                .weather-section h2 \x7b\n                    color: #2c3e50;\n                    margin-top: 0;\n                \x7d\n                .feed-links \x7b\n                    display: grid;\n                    grid-template-columns: repeat(auto-fit, minmax(250px, 1fr));\n                    gap: 20px;\n                    margin-top: 30px;\n                \x7d\n                .feed-link \x7b\n                    padding: 15px;\n                    background: #f8f9fa;\n                    border-radius: 8px;\n                    text-decoration: none;\n                    color: #2c3e50;\n                    transition: all 0.3s ease;\n                \x7d\n                .feed-link:hover \x7b\n                    background: #e9ecef;\n                    transform: translateY(-2px);\n                \x7d\n                .feed-link h3 \x7b\n                    margin: 0 0 10px 0;\n                    color: #2c3e50;\n                \x7d\n                .feed-link p \x7b\n                    margin: 0;\n                    color: #6c757d;\n                    font-size: 0.9em;\n                \x7d\n                .timestamp \x7b\n                    text-align: center;\n                    color: #6c757d;\n                    font-size: 0.9em;\n                    margin-top: 30px;\n                \x7d\n            </style>\n        </head>\n        <body>\n            <div class=\"container\">\n                <h1>News Dashboard</h1>\n        " ++
  (if ¬ weather_entries.isEmpty then
    "\n                <div class=\"weather-section\">\n                    <h2>Weather</h2>\n            " ++
    String.join (weather_entries.map indexEntryBlock) ++ "</div>"
  else "") ++
  "\n                <h2>News Sources</h2>\n                <div class=\"feed-links\">\n        " ++
  String.join (feed_links.map fun p => feedLinkBlock p.1 p.2) ++ "</div>" ++
  "\n                <div class=\"timestamp\">\n                    Last updated: " ++
  nowStr ++ "\n                </div>\n            </div>\n        </body>\n        </html>\n        "

/-- Append an entry to its source group (html_generator.py lines 450-454); the
dict is keyed by `entry.source`, an `Optional[str]`. -/
def insertSourceGroup (key : Option String) (e : FeedEntry) :
    List (Option String × List FeedEntry) → List (Option String × List FeedEntry)
  | [] => [(key, [e])]
  | (k, es) :: rest =>
    if k = key then (k, es ++ [e]) :: rest else (k, es) :: insertSourceGroup key e rest

/-- The source grouping of `save_html` (html_generator.py lines 450-454). -/
def groupBySource (entries : List FeedEntry) : List (Option String × List FeedEntry) :=
  entries.foldl (fun m e => insertSourceGroup e.source e m) []

/-- The `HTMLGenerator.save_html` method (html_generator.py lines 437-475),
returning the sequence of (filename, content) pairs it writes — per-source pages
first, `index.html` last.  `source.lower()` raises `AttributeError` when a
group's source is `None`; `_generate_feed_html` raises `AttributeError` on any
non-empty group (string `published` has no `strftime`). -/
def save_html (entries : List FeedEntry) (title : String)
    (weather_entries : Option (List FeedEntry)) (nowStr : String) :
    Except PyErr (List (String × String)) := do
  let groups := groupBySource entries
  let items ← groups.mapM fun p => do
    let source ← match p.1 with
      | some s => pure s
      | none => throw PyErr.attributeError
    let filename := (source.toLower.replace " " "_") ++ ".html"
    let html ← generate_feed_html p.2 title source
    pure (source, filename, html)
  let feedLinks := items.map fun i => (i.1, i.2.1)
  let files := items.map fun i => (i.2.1, i.2.2)
  pure (files ++
    [("index.html", generate_index_html (weather_entries.getD []) feedLinks nowStr)])

end HTMLGenerator

namespace Main

/-- The collection loop of `main` (main.py lines 92-99): each configured
adapter's `parse()` result is either a list of entries, appended to the
accumulator, or an escaped exception, which is caught and logged and contributes
nothing. -/
def collectEntries (results : List (Except PyErr (List FeedEntry))) : List FeedEntry :=
  results.foldl
    (fun acc r =>
      match r with
      | .ok es => acc ++ es
      | .error _ => acc)
    []

/-- Comparison used to model `all_entries.sort(key=lambda x: x.published,
reverse=True)` (main.py line 102): a stable sort that puts larger `published`
strings first and keeps the input order of ties.  Python compares `str` values
code point by code point, which is exactly the lexicographic order on the
character lists. -/
def publishedGE (a b : FeedEntry) : Prop := b.published.data ≤ a.published.data

instance : DecidableRel publishedGE := fun a b =>
  inferInstanceAs (Decidable (b.published.data ≤ a.published.data))

/-- The sort of `main` (main.py line 102), modelled by a stable insertion sort
(CPython's `list.sort` is also stable, and every stable sort under the same
comparison computes the same list). -/
def sortEntries (l : List FeedEntry) : List FeedEntry := l.insertionSort publishedGE

end Main

/-! Support definitions used only to state and witness the claims. -/

/-- What one adapter's `parse()` outcome contributes to the aggregate: its entry
list when it returned, nothing when it raised. -/
def adapterContribution (r : Except PyErr (List FeedEntry)) : List FeedEntry :=
  match r with
  | .ok es => es
  | .error _ => []

/-- A daily-forecast element whose precipitation fields are numbers, as a real
OpenWeather payload supplies them (`dt` left absent, defaulting to the epoch). -/
def goodDay (pop rain snow : Rat) : PyVal :=
  .vdict [("pop", .vnum pop), ("rain", .vnum rain), ("snow", .vnum snow)]

/-- The record `extract_weather_data` builds from `goodDay pop rain snow`. -/
def goodDayRec (pop rain snow : Rat) : WeatherParser.DailyData :=
  { date := "1970-01-01", summary := .vstr "", temp_day := .vnone, temp_min := .vnone,
    temp_max := .vnone, humidity := .vnone, description := .vstr "", main := .vstr "",
    rain := .vnum rain, snow := .vnum snow, pop := .vnum pop }

/-- A weather payload with an arbitrarily long, numerically-typed daily forecast
array (and nothing else). -/
def goodWeatherPayload (days : List (Rat × Rat × Rat)) : PyVal :=
  .vdict [("daily", .vlist (days.map fun t => goodDay t.1 t.2.1 t.2.2))]

/-- A weather payload whose single forecast day carries a string-typed `pop`
field; the comparison `day['pop'] > 0` then raises `TypeError` after the
current-conditions entry has already been appended. -/
def badWeatherPayload : PyVal :=
  .vdict [("daily", .vlist [.vdict [("pop", .vstr "x")]])]

/-- Every whitespace character of the string is a plain blank (the normal form
`re.sub(r'\s+', ' ', _)` produces). -/
def spaceOnlyBlank (l : List Char) : Prop :=
  ∀ c ∈ l, Clean.pyIsSpaceChar c = true → c = ' '

/-- No two adjacent whitespace characters. -/
def noAdjSpace (l : List Char) : Prop :=
  List.Chain'
    (fun a b => ¬(Clean.pyIsSpaceChar a = true ∧ Clean.pyIsSpaceChar b = true)) l

/-- Neither end of the string is whitespace (the normal form `str.strip()`
produces). -/
def edgeNonSpace (l : List Char) : Prop :=
  (∀ c ∈ l.head?, Clean.pyIsSpaceChar c = false) ∧
  (∀ c ∈ l.getLast?, Clean.pyIsSpaceChar c = false)

/-- The distinct values of a list in first-seen order — the key order of a Python
dict populated by insertion. -/
def firstSeen (l : List String) : List String :=
  l.foldl (fun acc c => if c ∈ acc then acc else acc ++ [c]) []

/-- Sample entries used to witness the renderer claims: a non-priority category,
the two priority categories out of priority order, and a category-less entry. -/
def sampleEntries : List FeedEntry :=
  [{ title := "edm", content := "c", published := "1", category := some "EDM News" },
   { title := "us", content := "c", published := "2", category := some "US News" },
   { title := "nocat", content := "c", published := "3", category := none },
   { title := "wx", content := "c", published := "4", category := some "Weather" }]

/-- A 501-character body, one character past the truncation threshold. -/
def longContent : String := String.mk (List.replicate 501 'a')

/-! General lemmas about the embedded operations. -/

@[simp] theorem exceptBind_ok {ε α β : Type} (a : α) (f : α → Except ε β) :
    (Except.ok a >>= f) = f a := rfl

@[simp] theorem exceptBind_error {ε α β : Type} (e : ε) (f : α → Except ε β) :
    ((Except.error e : Except ε α) >>= f) = .error e := rfl

@[simp] theorem exceptPure_eq_ok {ε α : Type} (a : α) :
    (pure a : Except ε α) = .ok a := rfl

@[simp] theorem exceptThrow_eq_error {ε α : Type} (e : ε) :
    (throw e : Except ε α) = .error e := rfl

theorem foldl_collect (l : List (Except PyErr (List FeedEntry)))
    (acc : List FeedEntry) :
    l.foldl
      (fun acc r =>
        match r with
        | .ok es => acc ++ es
        | .error _ => acc)
      acc = acc ++ (l.map adapterContribution).join := by
  induction l generalizing acc with
  | nil => simp
  | cons r rest ih =>
    cases r <;> simp [List.foldl_cons, ih, adapterContribution, List.append_assoc]

theorem mapM_ok_of_forall {α β : Type} (f : α → Except PyErr β) (l : List α)
    (h : ∀ x ∈ l, ∃ y, f x = .ok y) : ∃ ys, l.mapM f = .ok ys := by
  induction l with
  | nil => exact ⟨[], rfl⟩
  | cons x xs ih =>
    obtain ⟨y, hy⟩ := h x (by simp)
    obtain ⟨ys, hys⟩ := ih (fun z hz => h z (by simp [hz]))
    exact ⟨y :: ys, by rw [List.mapM_cons, hy, hys]; rfl⟩

/-- C6: for every configured adapter list, the aggregator's collection loop
returns exactly the concatenation of the entry lists of the adapters whose
`parse()` returned, so an adapter whose `parse()` raises is caught, contributes
nothing, and every other adapter's entries are still collected — aggregation
never aborts for one failing source. -/
theorem C6_theorem :
    (∀ results : List (Except PyErr (List FeedEntry)),
      Main.collectEntries results = (results.map adapterContribution).join) ∧
    (∀ (pre post : List (Except PyErr (List FeedEntry))) (err : PyErr),
      Main.collectEntries (pre ++ .error err :: post) =
        Main.collectEntries pre ++ Main.collectEntries post) := by
  have key : ∀ results : List (Except PyErr (List FeedEntry)),
      Main.collectEntries results = (results.map adapterContribution).join := by
    intro results
    simpa using foldl_collect results []
  refine ⟨key, fun pre post err => ?_⟩
  simp [key, adapterContribution]

theorem foldl_insertSource_head (entries : List FeedEntry) :
    ∀ (k : Option String) (es : List FeedEntry)
      (m : List (Option String × List FeedEntry)), es ≠ [] →
    ∃ es' m',
      entries.foldl (fun m e => HTMLGenerator.insertSourceGroup e.source e m)
        ((k, es) :: m) = (k, es') :: m' ∧ es' ≠ [] := by
  induction entries with
  | nil => exact fun k es m h => ⟨es, m, rfl, h⟩
  | cons e rest ih =>
    intro k es m h
    simp only [List.foldl_cons, HTMLGenerator.insertSourceGroup]
    by_cases hk : k = e.source
    · simp only [hk, if_pos rfl]
      exact ih e.source (es ++ [e]) m (by simp)
    · simp only [if_neg hk]
      exact ih k es _ h

theorem groupBySource_cons (e : FeedEntry) (rest : List FeedEntry) :
    ∃ es m, HTMLGenerator.groupBySource (e :: rest) = (e.source, es) :: m ∧ es ≠ [] := by
  obtain ⟨es, m, hm, hes⟩ := foldl_insertSource_head rest e.source [e] [] (by simp)
  exact ⟨es, m, hm, hes⟩

theorem generate_feed_html_cons_error (x : FeedEntry) (xs : List FeedEntry)
    (t s : String) :
    HTMLGenerator.generate_feed_html (x :: xs) t s = .error .attributeError := by
  unfold HTMLGenerator.generate_feed_html
  rw [List.mapM_cons]
  simp [HTMLGenerator.strftimeOnStr]

/-- C4: for every non-empty entry list (whose `published` fields are strings, as
the data model's `FeedEntry` requires), the multi-document `save_html` raises
`AttributeError` — the per-source page renderer calls `strftime` on the string
`published` field — so the multi-document variant never successfully renders a
non-empty source group. -/
theorem C4_theorem (entries : List FeedEntry) (title : String)
    (w : Option (List FeedEntry)) (nowStr : String) (h : entries ≠ []) :
    HTMLGenerator.save_html entries title w nowStr = .error .attributeError := by
  match entries, h with
  | e :: rest, _ =>
    obtain ⟨es, m, hg, hes⟩ := groupBySource_cons e rest
    unfold HTMLGenerator.save_html
    rw [hg]
    dsimp only
    rw [List.mapM_cons]
    match es, hes with
    | x :: xs, _ =>
      cases hsrc : e.source with
      | none => simp
      | some s => simp [generate_feed_html_cons_error]

/-- Concrete instantiation of `C4_theorem`: a single canonical entry makes
`save_html` raise. -/
theorem C4_witness :
    HTMLGenerator.save_html
      [{ title := "Current Weather Conditions", content := "c",
         published := "2024-01-02 00:00", source := some "OpenWeather",
         category := some "Weather" }] "Daily News Dashboard" none
      "2024-01-02 00:00" = .error .attributeError :=
  C4_theorem _ _ _ _ (by simp)

instance : IsTrans FeedEntry Main.publishedGE :=
  ⟨fun _ _ _ hab hbc => le_trans hbc hab⟩

instance : IsTotal FeedEntry Main.publishedGE :=
  ⟨fun a b => (le_total b.published.data a.published.data).imp id id⟩

/-- C5: the aggregator's sort is descending in the `published` string (pairwise,
under lexicographic string order), stable (entries with any fixed `published`
value keep their input order), and on the three sample `published` values the
sorted order puts `"No date available"` first — it is lexicographically largest,
since `'N' > '2'` — followed by the two real dates reverse-chronologically. -/
theorem C5_theorem :
    (∀ l : List FeedEntry, (Main.sortEntries l).Sorted Main.publishedGE) ∧
    (∀ (l : List FeedEntry) (k : String),
      (Main.sortEntries l).filter (fun e => e.published = k) =
        l.filter (fun e => e.published = k)) ∧
    (Main.sortEntries
        [{ title := "a", content := "a", published := "2024-01-02 00:00" },
         { title := "b", content := "b", published := "2024-01-05 12:00" },
         { title := "c", content := "c", published := "No date available" }]).map
      FeedEntry.published =
      ["No date available", "2024-01-05 12:00", "2024-01-02 00:00"] := by
  refine ⟨fun l => List.sorted_insertionSort _ l, fun l k => ?_, by decide⟩
  set p : FeedEntry → Bool := fun e => e.published = k with hp
  have hpub : ∀ e : FeedEntry, p e = true → e.published = k := by
    intro e he
    simpa [hp] using he
  have hpw : (l.filter p).Pairwise Main.publishedGE := by
    refine List.pairwise_of_forall_mem_list fun a ha b hb => ?_
    have ha2 := hpub a (List.of_mem_filter ha)
    have hb2 := hpub b (List.of_mem_filter hb)
    show b.published.data ≤ a.published.data
    rw [ha2, hb2]
  have hsub : List.Sublist (l.filter p) (Main.sortEntries l) :=
    List.sublist_insertionSort hpw (List.filter_sublist l)
  have hself : (l.filter p).filter p = l.filter p :=
    List.filter_eq_self.mpr fun a ha => List.mem_filter.mp ha |>.2
  have hsub2 : List.Sublist (l.filter p) ((Main.sortEntries l).filter p) := by
    have := hsub.filter p
    rwa [hself] at this
  have hperm : List.Perm ((Main.sortEntries l).filter p) (l.filter p) :=
    (List.perm_insertionSort Main.publishedGE l).filter p
  exact (hsub2.eq_of_length hperm.length_eq.symm).symm

theorem extractDaily_good (p r s : Rat) :
    WeatherParser.extractDaily (goodDay p r s) = .ok (goodDayRec p r s) := rfl

theorem mapM_extractDaily_good (days : List (Rat × Rat × Rat)) :
    (days.map fun t => goodDay t.1 t.2.1 t.2.2).mapM WeatherParser.extractDaily =
      .ok (days.map fun t => goodDayRec t.1 t.2.1 t.2.2) := by
  induction days with
  | nil => rfl
  | cons d rest ih =>
    rw [List.map_cons, List.mapM_cons, extractDaily_good, ih]
    rfl

theorem extract_weather_good (days : List (Rat × Rat × Rat)) :
    WeatherParser.extract_weather_data (goodWeatherPayload days) =
      .ok { location := (.vnone, .vnone, .vnone),
            current := { timestamp := "1970-01-01 00:00:00", sunrise := "00:00",
                         sunset := "00:00", temp := .vnone, feels_like := .vnone,
                         pressure := .vnone, humidity := .vnone, wind_speed := .vnone,
                         wind_deg := .vnone, description := .vstr "", main := .vstr "" },
            daily_forecast := days.map fun t => goodDayRec t.1 t.2.1 t.2.2,
            hourly_forecast := [] } := by
  have h1 : WeatherParser.extract_weather_data (goodWeatherPayload days) =
      ((days.map fun t => goodDay t.1 t.2.1 t.2.2).mapM WeatherParser.extractDaily) >>=
        fun daily =>
          .ok { location := (.vnone, .vnone, .vnone),
                current := { timestamp := "1970-01-01 00:00:00", sunrise := "00:00",
                             sunset := "00:00", temp := .vnone, feels_like := .vnone,
                             pressure := .vnone, humidity := .vnone,
                             wind_speed := .vnone, wind_deg := .vnone,
                             description := .vstr "", main := .vstr "" },
                daily_forecast := daily, hourly_forecast := [] } := rfl
  rw [h1, mapM_extractDaily_good]
  rfl

theorem dayForecastBlock_good (p r s : Rat) :
    ∃ str, WeatherParser.dayForecastBlock (goodDayRec p r s) = .ok str := by
  unfold WeatherParser.dayForecastBlock goodDayRec
  rw [show strptime "1970-01-01" "%Y-%m-%d" =
      some { year := 1970, month := 1, day := 1 } from rfl]
  simp only [exceptBind_ok, PyVal.gtNum]
  cases hqp : decide ((0 : Rat) < p) <;> cases hqr : decide ((0 : Rat) < r) <;>
    cases hqs : decide ((0 : Rat) < s) <;> exact ⟨_, rfl⟩

theorem format_daily_good (days : List (Rat × Rat × Rat)) :
    ∃ str, WeatherParser.format_daily_forecast
      (days.map fun t => goodDayRec t.1 t.2.1 t.2.2) = .ok str := by
  have hall : ∀ x ∈ (days.map fun t => goodDayRec t.1 t.2.1 t.2.2).take 5,
      ∃ y, WeatherParser.dayForecastBlock x = .ok y := by
    intro x hx
    obtain ⟨t, _, ht⟩ := List.mem_map.mp (List.mem_of_mem_take hx)
    exact ht ▸ dayForecastBlock_good t.1 t.2.1 t.2.2
  obtain ⟨ys, hys⟩ := mapM_ok_of_forall WeatherParser.dayForecastBlock _ hall
  unfold WeatherParser.format_daily_forecast
  rw [hys]
  exact ⟨_, rfl⟩

/-- C1 as stated is false; the amended claim: the weather adapter returns at most
2 entries for every network outcome and payload, and exactly 2 — regardless of
the length of the daily forecast array — whenever the payload's forecast days
carry numeric precipitation fields; a 1-entry result occurs only when
`format_daily_forecast` raises after the current-conditions entry was built. -/
theorem C1_amended_theorem :
    (∀ (net : Except PyErr PyVal) (nowStr : String),
      (WeatherParser.parse net nowStr).length ≤ 2) ∧
    (∀ (days : List (Rat × Rat × Rat)) (nowStr : String),
      (WeatherParser.parse (.ok (goodWeatherPayload days)) nowStr).length = 2) := by
  constructor
  · intro net nowStr
    unfold WeatherParser.parse
    rcases net with e | w
    · simp
    · rcases hw : WeatherParser.extract_weather_data w with e2 | wd
      · simp [hw]
      · rcases hf : WeatherParser.format_daily_forecast wd.daily_forecast with e3 | fc <;>
          simp [hw, hf]
  · intro days nowStr
    obtain ⟨str, hstr⟩ := format_daily_good days
    unfold WeatherParser.parse
    dsimp only
    rw [extract_weather_good days]
    dsimp only
    rw [hstr]
    rfl

/-- C1 counterexample: a payload whose single forecast day has a string-typed
`pop` makes `parse` return exactly one entry — the claim's "exactly 0 or 2"
fails.  (`day['pop'] > 0` raises `TypeError` after the current-conditions entry
was appended; the handler returns the partial list.) -/
theorem C1_counterexample :
    (WeatherParser.parse (.ok badWeatherPayload) "2025-01-01 00:00:00").length = 1 := by
  rfl

theorem parseNewsapiInner_reqErr_of_net :
    ∀ name, UnifiedNewsParser.parseNewsapiInner name (.error .requestError) =
      .error .requestError := fun _ => rfl

theorem parseNewsapiInner_reqErr_of_status (name : String) (code : Nat)
    (body : Option PyVal) (h : 400 ≤ code) :
    UnifiedNewsParser.parseNewsapiInner name (.ok ⟨code, body⟩) = .error .requestError := by
  unfold UnifiedNewsParser.parseNewsapiInner
  simp [h]

theorem parseNewsapiInner_reqErr_of_noBody (name : String) (code : Nat) :
    UnifiedNewsParser.parseNewsapiInner name (.ok ⟨code, none⟩) = .error .requestError := by
  unfold UnifiedNewsParser.parseNewsapiInner
  by_cases h : 400 ≤ code <;> simp [h]

theorem parseNewsapiInner_empty_of_badStatus (name : String) (code : Nat)
    (body : PyVal) (sv : PyVal) (hcode : code < 400)
    (hget : body.getd "status" .vnone = .ok sv) (hsv : sv.eqStr "ok" = false) :
    UnifiedNewsParser.parseNewsapiInner name (.ok ⟨code, some body⟩) = .ok [] := by
  unfold UnifiedNewsParser.parseNewsapiInner
  simp [Nat.not_le.mpr hcode, hget, hsv]

theorem parse_newsapi_empty_of_inner (apiKey : Option String) (name : String)
    (net : Except PyErr HttpResponse)
    (h : UnifiedNewsParser.parseNewsapiInner name net = .error .requestError ∨
        UnifiedNewsParser.parseNewsapiInner name net = .ok []) :
    UnifiedNewsParser.parse_newsapi apiKey name net = .ok [] := by
  unfold UnifiedNewsParser.parse_newsapi
  by_cases hk : optTruthy apiKey = false
  · simp [hk]
  · rcases h with h | h <;> simp [hk, h]

/-- C2 as stated is false; the amended claim: the headline adapter returns `[]`
(never raising) for every network-level failure, every non-2xx response, every
undecodable body, and every dict body whose `status` is not `"ok"` — and when
the API key is falsy it returns `[]` with no network call; but for a body with
`status == "ok"` that lacks a well-formed `articles` key, an exception (e.g.
`KeyError`) escapes the adapter, because the `except` clause catches only
`requests.exceptions.RequestException`. -/
theorem C2_amended_theorem (apiKey : Option String) (name : String) :
    (UnifiedNewsParser.parse_newsapi apiKey name (.error .requestError) = .ok []) ∧
    (∀ (code : Nat) (body : Option PyVal), 400 ≤ code →
      UnifiedNewsParser.parse_newsapi apiKey name (.ok ⟨code, body⟩) = .ok []) ∧
    (∀ code : Nat,
      UnifiedNewsParser.parse_newsapi apiKey name (.ok ⟨code, none⟩) = .ok []) ∧
    (∀ (code : Nat) (body sv : PyVal), code < 400 →
      body.getd "status" .vnone = .ok sv → sv.eqStr "ok" = false →
      UnifiedNewsParser.parse_newsapi apiKey name (.ok ⟨code, some body⟩) = .ok []) ∧
    (optTruthy apiKey = false →
      ∀ net, UnifiedNewsParser.parse_newsapi apiKey name net = .ok []) := by
  refine ⟨?_, ?_, ?_, ?_, ?_⟩
  · exact parse_newsapi_empty_of_inner _ _ _ (.inl (parseNewsapiInner_reqErr_of_net name))
  · intro code body h
    exact parse_newsapi_empty_of_inner _ _ _
      (.inl (parseNewsapiInner_reqErr_of_status name code body h))
  · intro code
    exact parse_newsapi_empty_of_inner _ _ _
      (.inl (parseNewsapiInner_reqErr_of_noBody name code))
  · intro code body sv hcode hget hsv
    exact parse_newsapi_empty_of_inner _ _ _
      (.inr (parseNewsapiInner_empty_of_badStatus name code body sv hcode hget hsv))
  · intro hk net
    unfold UnifiedNewsParser.parse_newsapi
    simp [hk]

/-- C2 counterexample: a 200 response whose decoded body is the dict
`{"status": "ok"}` — well-status, but without an `articles` key — makes
`parse_newsapi` raise `KeyError` past the adapter boundary instead of returning
a list. -/
theorem C2_counterexample :
    UnifiedNewsParser.parse_newsapi (some "key") "US News"
      (.ok { statusCode := 200, body := some (.vdict [("status", .vstr "ok")]) }) =
      .error .keyError := rfl

/-- Concrete instantiation of `C2_amended_theorem`: a dict body with
`status == "error"` yields the empty list. -/
theorem C2_witness :
    UnifiedNewsParser.parse_newsapi (some "key") "US News"
      (.ok { statusCode := 200, body := some (.vdict [("status", .vstr "error")]) }) =
      .ok [] :=
  (C2_amended_theorem (some "key") "US News").2.2.2.1 200
    (.vdict [("status", .vstr "error")]) (.vstr "error") (by decide) rfl rfl

/-- C8: every entry the headline adapter produces carries either the canonical
rendering of a successfully ISO-8601-with-literal-Z-parsed `publishedAt`, or the
literal `"No date available"`; in particular when the upstream date string fails
that single format (or is absent/empty), the entry's `published` is the literal
fallback, never the raw upstream string. -/
theorem C8_theorem (name : String) (article : PyVal) (e : FeedEntry)
    (h : UnifiedNewsParser.newsapiArticleEntry name article = .ok e) :
    (e.published = "No date available" ∨
      ∃ raw d, article.getd "publishedAt" (.vstr "") = .ok (.vstr raw) ∧
        strptime raw UnifiedNewsParser.isoFormat = some d ∧
        e.published = d.strftime "%Y-%m-%d %H:%M") ∧
    (∀ raw, article.getd "publishedAt" (.vstr "") = .ok (.vstr raw) →
      strptime raw UnifiedNewsParser.isoFormat = none →
      e.published = "No date available") := by
  unfold UnifiedNewsParser.newsapiArticleEntry at h
  rcases hget : article.getd "publishedAt" (.vstr "") with er | v <;> rw [hget] at h <;>
    simp only [exceptBind_ok, exceptBind_error] at h
  · simp at h
  rcases hpub : UnifiedNewsParser.newsapiPublished v with er2 | pub <;> rw [hpub] at h <;>
    simp only [exceptBind_ok, exceptBind_error] at h
  · simp at h
  have hepub : e.published = pub := by
    rcases hd : article.getd "description" .vnone with e3 | dv <;> rw [hd] at h <;>
      simp only [exceptBind_ok, exceptBind_error] at h
    · simp at h
    rcases hc : article.getd "content" .vnone with e4 | cv <;> rw [hc] at h <;>
      simp only [exceptBind_ok, exceptBind_error] at h
    · simp at h
    rcases ht : article.getd "title" (.vstr "No title") with e5 | tv <;> rw [ht] at h <;>
      simp only [exceptBind_ok, exceptBind_error] at h
    · simp at h
    rcases hu : article.getd "url" (.vstr "") with e6 | uv <;> rw [hu] at h <;>
      simp only [exceptBind_ok, exceptBind_error] at h
    · simp at h
    rcases hs : article.getd "source" (.vdict []) with e7 | sv <;> rw [hs] at h <;>
      simp only [exceptBind_ok, exceptBind_error] at h
    · simp at h
    rcases hn : sv.getd "name" (.vstr "Unknown") with e8 | nv <;> rw [hn] at h <;>
      simp only [exceptBind_ok, exceptBind_error] at h
    · simp at h
    simp only [Except.ok.injEq] at h
    rw [← h]
  have hpub2 : pub = "No date available" ∨
      ∃ raw d, v = .vstr raw ∧ strptime raw UnifiedNewsParser.isoFormat = some d ∧
        pub = d.strftime "%Y-%m-%d %H:%M" := by
    unfold UnifiedNewsParser.newsapiPublished at hpub
    by_cases htr : v.truthy = false
    · rw [if_pos htr] at hpub
      exact .inl (Except.ok.inj hpub).symm
    · rw [if_neg htr] at hpub
      rcases v with q | s | xs | fs | _
      · simp at hpub
      · dsimp only at hpub
        rcases hstrp : strptime s UnifiedNewsParser.isoFormat with _ | d <;>
          rw [hstrp] at hpub
        · exact .inl (Except.ok.inj hpub).symm
        · exact .inr ⟨s, d, rfl, hstrp, (Except.ok.inj hpub).symm⟩
      · simp at hpub
      · simp at hpub
      · simp at hpub
  constructor
  · rcases hpub2 with hl | ⟨raw, d, hv, hsome, hrender⟩
    · exact .inl (hepub.trans hl)
    · exact .inr ⟨raw, d, by rw [hv], hsome, hepub.trans hrender⟩
  · intro raw hraw hnone
    have hv : v = .vstr raw := Except.ok.inj hraw
    rcases hpub2 with hl | ⟨raw2, d, hv2, hsome, _⟩
    · exact hepub.trans hl
    · rw [hv] at hv2
      cases PyVal.vstr.inj hv2
      rw [hnone] at hsome
      cases hsome

/-- Concrete instantiation of `C8_theorem`: an article whose `publishedAt` is the
unparseable string `"bogus"` yields the literal fallback, not the raw string. -/
theorem C8_witness :
    ({ title := "No title", content := "No content available",
       published := "No date available", link := some "",
       source := some "US News - Unknown", category := some "US News" } :
      FeedEntry).published = "No date available" :=
  (C8_theorem ("US News") (.vdict [("publishedAt", .vstr "bogus")]) _ rfl).2 "bogus" rfl rfl

/-- C7: `format_date` tries the candidate formats in order, returns the canonical
`YYYY-MM-DD HH:MM` rendering of the first successful parse, echoes the input
string unchanged (raising nothing) when every candidate fails, and on
`"2024-01-15T10:30:00Z"` with the ISO-with-literal-Z candidate yields
`"2024-01-15 10:30"`. -/
theorem C7_theorem :
    (∀ (s : String) (fmts : List String), (∀ f ∈ fmts, strptime s f = none) →
      format_date s fmts = s) ∧
    (∀ (s : String) (pre : List String) (f : String) (post : List String) (d : DT),
      (∀ g ∈ pre, strptime s g = none) → strptime s f = some d →
      format_date s (pre ++ f :: post) = d.strftime "%Y-%m-%d %H:%M") ∧
    format_date "2024-01-15T10:30:00Z" ["%Y-%m-%dT%H:%M:%SZ"] = "2024-01-15 10:30" := by
  refine ⟨?_, ?_, by rfl⟩
  · intro s fmts h
    induction fmts with
    | nil => rfl
    | cons f rest ih =>
      unfold format_date
      rw [h f (by simp)]
      exact ih fun g hg => h g (by simp [hg])
  · intro s pre f post d hpre hf
    induction pre with
    | nil =>
      show format_date s (f :: post) = d.strftime "%Y-%m-%d %H:%M"
      unfold format_date
      rw [hf]
    | cons g rest ih =>
      show format_date s (g :: (rest ++ f :: post)) = d.strftime "%Y-%m-%d %H:%M"
      unfold format_date
      rw [hpre g (by simp)]
      exact ih fun g2 hg2 => hpre g2 (by simp [hg2])

/-- Concrete instantiation of `C7_theorem`: the RFC-822 candidate fails on the
ISO string, the ISO candidate succeeds and is rendered canonically; an
unparseable string is echoed unchanged. -/
theorem C7_witness :
    format_date "2024-01-15T10:30:00Z"
        ["%a, %d %b %Y %H:%M:%S %z", "%Y-%m-%dT%H:%M:%SZ"] = "2024-01-15 10:30" ∧
    format_date "garbage"
        ["%a, %d %b %Y %H:%M:%S %z", "%a, %d %b %Y %H:%M:%S", "%Y-%m-%d %H:%M:%S"] =
      "garbage" := by
  constructor
  · exact C7_theorem.2.1 "2024-01-15T10:30:00Z" ["%a, %d %b %Y %H:%M:%S %z"]
      "%Y-%m-%dT%H:%M:%SZ" []
      { year := 2024, month := 1, day := 15, hour := 10, minute := 30 }
      (fun g hg => by obtain rfl := List.mem_singleton.mp hg; rfl) rfl
  · exact C7_theorem.1 "garbage" _
      (fun g hg => by
        simp only [List.mem_cons, List.not_mem_nil, or_false] at hg
        rcases hg with rfl | rfl | rfl <;> rfl)

theorem stripTagsF_no_lt : ∀ (fuel : Nat) (l : List Char), '<' ∉ l →
    Clean.stripTagsF fuel l = l
  | 0, _, _ => rfl
  | _ + 1, [], _ => rfl
  | fuel + 1, c :: rest, h => by
    have hc : ¬ c = '<' := fun hc => h (hc ▸ List.mem_cons_self c rest)
    unfold Clean.stripTagsF
    rw [if_neg hc, stripTagsF_no_lt fuel rest (fun hm => h (List.mem_cons_of_mem c hm))]

theorem unescapeF_no_amp : ∀ (fuel : Nat) (l : List Char), '&' ∉ l →
    Clean.unescapeF fuel l = l
  | 0, _, _ => rfl
  | _ + 1, [], _ => rfl
  | fuel + 1, c :: rest, h => by
    have hc : ¬ c = '&' := fun hc => h (hc ▸ List.mem_cons_self c rest)
    unfold Clean.unescapeF
    rw [if_neg hc, unescapeF_no_amp fuel rest (fun hm => h (List.mem_cons_of_mem c hm))]

theorem collapseWS_spaceOnlyBlank : ∀ l : List Char, spaceOnlyBlank (Clean.collapseWS l)
  | [] => by simp [Clean.collapseWS, spaceOnlyBlank]
  | [c] => by
    by_cases h : Clean.pyIsSpaceChar c <;>
      simp [Clean.collapseWS, spaceOnlyBlank, h]
  | c :: d :: rest => by
    have ih := collapseWS_spaceOnlyBlank (d :: rest)
    by_cases hc : Clean.pyIsSpaceChar c <;> by_cases hd : Clean.pyIsSpaceChar d
    · simpa [Clean.collapseWS, hc, hd] using ih
    · intro x hx hsp
      rw [Clean.collapseWS] at hx
      simp only [hc, hd, if_pos, if_neg, Bool.not_eq_true, ite_true, ite_false] at hx
      rcases List.mem_cons.mp hx with rfl | hx2
      · rfl
      · exact ih x hx2 hsp
    · intro x hx hsp
      rw [Clean.collapseWS] at hx
      simp only [hc, if_neg, Bool.not_eq_true, ite_false] at hx
      rcases List.mem_cons.mp hx with rfl | hx2
      · exact absurd hsp (by simp [hc])
      · exact ih x hx2 hsp
    · intro x hx hsp
      rw [Clean.collapseWS] at hx
      simp only [hc, if_neg, Bool.not_eq_true, ite_false] at hx
      rcases List.mem_cons.mp hx with rfl | hx2
      · exact absurd hsp (by simp [hc])
      · exact ih x hx2 hsp

theorem collapseWS_head_of_nonspace (d : Char) (rest : List Char)
    (h : Clean.pyIsSpaceChar d = false) :
    ∃ t, Clean.collapseWS (d :: rest) = d :: t := by
  cases rest with
  | nil => exact ⟨[], by simp [Clean.collapseWS, h]⟩
  | cons e rest2 =>
    refine ⟨Clean.collapseWS (e :: rest2), ?_⟩
    rw [Clean.collapseWS]
    simp [h]

theorem collapseWS_noAdj : ∀ l : List Char, noAdjSpace (Clean.collapseWS l)
  | [] => by simp [Clean.collapseWS, noAdjSpace]
  | [c] => by by_cases h : Clean.pyIsSpaceChar c <;> simp [Clean.collapseWS, noAdjSpace, h]
  | c :: d :: rest => by
    have ih := collapseWS_noAdj (d :: rest)
    by_cases hc : Clean.pyIsSpaceChar c <;> by_cases hd : Clean.pyIsSpaceChar d
    · rw [Clean.collapseWS]
      simpa [hc, hd] using ih
    · obtain ⟨t, ht⟩ := collapseWS_head_of_nonspace d rest (by simpa using hd)
      rw [Clean.collapseWS]
      simp only [hc, hd, ite_true, ite_false, Bool.not_eq_true, if_pos, if_neg]
      unfold noAdjSpace
      rw [List.chain'_cons']
      refine ⟨?_, ih⟩
      intro y hy
      rw [ht] at hy
      simp only [List.head?_cons, Option.mem_def, Option.some.injEq] at hy
      subst hy
      simp [hd]
    · rw [Clean.collapseWS]
      simp only [hc, Bool.not_eq_true, ite_false, if_neg]
      unfold noAdjSpace
      rw [List.chain'_cons']
      exact ⟨fun y _ => by simp [hc], ih⟩
    · rw [Clean.collapseWS]
      simp only [hc, Bool.not_eq_true, ite_false, if_neg]
      unfold noAdjSpace
      rw [List.chain'_cons']
      exact ⟨fun y _ => by simp [hc], ih⟩

theorem collapseWS_eq_self : ∀ l : List Char, spaceOnlyBlank l → noAdjSpace l →
    Clean.collapseWS l = l
  | [], _, _ => rfl
  | [c], h1, _ => by
    by_cases hc : Clean.pyIsSpaceChar c
    · have := h1 c (by simp) hc
      simp [Clean.collapseWS, hc, this]
    · simp [Clean.collapseWS, hc]
  | c :: d :: rest, h1, h2 => by
    have htail := collapseWS_eq_self (d :: rest)
      (fun x hx hsp => h1 x (List.mem_cons_of_mem c hx) hsp) h2.tail
    by_cases hc : Clean.pyIsSpaceChar c
    · have hcd := List.chain'_cons.mp h2 |>.1
      have hd : Clean.pyIsSpaceChar d = false := by
        by_contra hdd
        exact hcd ⟨hc, by simpa using hdd⟩
      have hc' : c = ' ' := h1 c (by simp) hc
      rw [Clean.collapseWS]
      simp [hc, hd, htail, hc']
    · rw [Clean.collapseWS]
      simp [hc, htail]

theorem dropWhile_head_not (p : Char → Bool) (l : List Char) :
    ∀ c ∈ (l.dropWhile p).head?, p c = false := by
  induction l with
  | nil => simp
  | cons x xs ih =>
    by_cases hx : p x
    · simpa [List.dropWhile_cons, hx] using ih
    · simp [List.dropWhile_cons, hx]

theorem dropWhile_eq_self_of_head (p : Char → Bool) (l : List Char)
    (h : ∀ c ∈ l.head?, p c = false) : l.dropWhile p = l := by
  cases l with
  | nil => rfl
  | cons x xs => simp [List.dropWhile_cons, h x (by simp)]

theorem getLast?_dropWhile (p : Char → Bool) (l : List Char)
    (h : l.dropWhile p ≠ []) : (l.dropWhile p).getLast? = l.getLast? := by
  obtain ⟨t, ht⟩ := List.dropWhile_suffix (l := l) p
  conv_rhs => rw [← ht]
  rw [List.getLast?_append]
  cases hg : (l.dropWhile p).getLast? with
  | none => exact absurd (by simpa using hg) h
  | some c => simp [hg]

theorem noAdjSpace_dropWhile (p : Char → Bool) (l : List Char) (h : noAdjSpace l) :
    noAdjSpace (l.dropWhile p) := by
  induction l with
  | nil => simpa using h
  | cons x xs ih =>
    by_cases hx : p x
    · rw [List.dropWhile_cons, if_pos hx]
      exact ih h.tail
    · rwa [List.dropWhile_cons, if_neg hx]

theorem noAdjSpace_reverse (l : List Char) (h : noAdjSpace l) : noAdjSpace l.reverse := by
  unfold noAdjSpace at h ⊢
  rw [List.chain'_reverse]
  refine h.imp ?_
  intro a b hab hp
  exact hab ⟨hp.2, hp.1⟩

theorem mem_pyStrip {c : Char} {l : List Char} (h : c ∈ Clean.pyStrip l) : c ∈ l := by
  unfold Clean.pyStrip at h
  rw [List.mem_reverse] at h
  have h2 := (List.dropWhile_sublist _).subset h
  rw [List.mem_reverse] at h2
  exact (List.dropWhile_sublist _).subset h2

theorem pyStrip_eq_self (l : List Char) (h : edgeNonSpace l) : Clean.pyStrip l = l := by
  unfold Clean.pyStrip
  rw [dropWhile_eq_self_of_head _ _ h.1,
    dropWhile_eq_self_of_head _ _ (by simpa using h.2), List.reverse_reverse]

theorem pyStrip_collapse_props (l : List Char) :
    spaceOnlyBlank (Clean.pyStrip (Clean.collapseWS l)) ∧
    noAdjSpace (Clean.pyStrip (Clean.collapseWS l)) ∧
    edgeNonSpace (Clean.pyStrip (Clean.collapseWS l)) := by
  set m := Clean.collapseWS l with hm
  refine ⟨fun c hc hsp => collapseWS_spaceOnlyBlank l c (mem_pyStrip hc) hsp, ?_, ?_, ?_⟩
  · unfold Clean.pyStrip
    exact noAdjSpace_reverse _ (noAdjSpace_dropWhile _ _
      (noAdjSpace_reverse _ (noAdjSpace_dropWhile _ _ (collapseWS_noAdj l))))
  · intro c hc
    unfold Clean.pyStrip at hc
    rw [List.head?_reverse] at hc
    by_cases hv : (m.dropWhile Clean.pyIsSpaceChar).reverse.dropWhile Clean.pyIsSpaceChar = []
    · rw [hv] at hc
      simp at hc
    · rw [getLast?_dropWhile _ _ hv, List.getLast?_reverse] at hc
      exact dropWhile_head_not _ _ c hc
  · intro c hc
    unfold Clean.pyStrip at hc
    rw [List.getLast?_reverse] at hc
    exact dropWhile_head_not _ _ c hc

theorem norm_idem (l : List Char) :
    Clean.pyStrip (Clean.collapseWS (Clean.pyStrip (Clean.collapseWS l))) =
      Clean.pyStrip (Clean.collapseWS l) := by
  obtain ⟨h1, h2, h3⟩ := pyStrip_collapse_props l
  rw [collapseWS_eq_self _ h1 h2, pyStrip_eq_self _ h3]

/-- C3 as stated is false; the amended claim: `clean_content` strips the tags and
decodes the entities of the sample — `clean_content("<p>A &amp; B</p>") =
"A & B"` — and it is idempotent on every input whose cleaned form contains
neither `'<'` nor `'&'`; it is not idempotent in general, because entity
decoding can synthesize new tag-shaped text that only a second pass would
strip. -/
theorem C3_amended_theorem :
    clean_content "<p>A &amp; B</p>" = "A & B" ∧
    (∀ s : String, '<' ∉ (clean_content s).data → '&' ∉ (clean_content s).data →
      clean_content (clean_content s) = clean_content s) := by
  refine ⟨by rfl, fun s h1 h2 => ?_⟩
  have hdata : (clean_content s).data =
      Clean.pyStrip (Clean.collapseWS (Clean.unescape (Clean.stripTags s.data))) := rfl
  apply String.ext
  show (clean_content (clean_content s)).data = (clean_content s).data
  have hstep : (clean_content (clean_content s)).data =
      Clean.pyStrip (Clean.collapseWS (Clean.unescape
        (Clean.stripTags (clean_content s).data))) := rfl
  rw [hstep, Clean.stripTags, stripTagsF_no_lt _ _ h1, Clean.unescape,
    unescapeF_no_amp _ _ h2, hdata, norm_idem]

/-- C3 counterexample: entity decoding can synthesize a tag, so a second pass
differs — `clean_content("&lt;b&gt;")` is `"<b>"`, but cleaning again strips it
to `""`; `clean_content` is not idempotent. -/
theorem C3_counterexample :
    clean_content (clean_content "&lt;b&gt;") ≠ clean_content "&lt;b&gt;" := by decide

/-- Concrete instantiation of `C3_amended_theorem`: a tag-and-whitespace-laden
input whose cleaned form has no `'<'` or `'&'` is a fixed point of a second
cleaning. -/
theorem C3_witness :
    clean_content (clean_content "<p>Hello   world</p>") =
      clean_content "<p>Hello   world</p>" :=
  C3_amended_theorem.2 "<p>Hello   world</p>" (by decide) (by decide)

theorem insertGrouped_keys (k : String) (e : FeedEntry) :
    ∀ m : List (String × List FeedEntry),
    (HTMLGenerator.insertGrouped k e m).map Prod.fst =
      if k ∈ m.map Prod.fst then m.map Prod.fst else m.map Prod.fst ++ [k]
  | [] => by simp [HTMLGenerator.insertGrouped]
  | (k2, es) :: rest => by
    by_cases hk : k2 = k
    · subst hk
      simp [HTMLGenerator.insertGrouped]
    · rw [HTMLGenerator.insertGrouped, if_neg hk]
      simp only [List.map_cons, insertGrouped_keys k e rest, List.mem_cons]
      by_cases hmem : k ∈ rest.map Prod.fst
      · simp [hmem]
      · simp [hmem, Ne.symm hk]

theorem insertGrouped_lookup (k : String) (e : FeedEntry) :
    ∀ (m : List (String × List FeedEntry)) (c : String),
    HTMLGenerator.lookupGroup (HTMLGenerator.insertGrouped k e m) c =
      if c = k then some ((HTMLGenerator.lookupGroup m k).getD [] ++ [e])
      else HTMLGenerator.lookupGroup m c
  | [], c => by
    rw [HTMLGenerator.insertGrouped]
    by_cases hc : c = k
    · subst hc
      simp [HTMLGenerator.lookupGroup]
    · have hkc : ¬ k = c := fun h => hc h.symm
      simp [HTMLGenerator.lookupGroup, hc, hkc]
  | (k2, es) :: rest, c => by
    by_cases h2 : k2 = k
    · subst h2
      rw [HTMLGenerator.insertGrouped, if_pos rfl]
      by_cases hc : c = k2
      · subst hc
        rw [HTMLGenerator.lookupGroup, if_pos rfl, if_pos rfl,
          HTMLGenerator.lookupGroup, if_pos rfl]
        rfl
      · rw [HTMLGenerator.lookupGroup, if_neg (fun h => hc h.symm), if_neg hc,
          HTMLGenerator.lookupGroup, if_neg (fun h => hc h.symm)]
    · rw [HTMLGenerator.insertGrouped, if_neg h2]
      by_cases hc : k2 = c
      · subst hc
        rw [HTMLGenerator.lookupGroup, if_pos rfl, if_neg h2,
          HTMLGenerator.lookupGroup, if_pos rfl]
      · rw [HTMLGenerator.lookupGroup, if_neg hc, insertGrouped_lookup k e rest c]
        by_cases hck : c = k
        · rw [if_pos hck, if_pos hck, HTMLGenerator.lookupGroup, if_neg h2]
        · rw [if_neg hck, if_neg hck, HTMLGenerator.lookupGroup, if_neg hc]

theorem firstSeen_append_singleton (xs : List String) (x : String) :
    firstSeen (xs ++ [x]) =
      if x ∈ firstSeen xs then firstSeen xs else firstSeen xs ++ [x] := by
  simp [firstSeen, List.foldl_append]

theorem firstSeen_go_mem (y : String) :
    ∀ (xs acc : List String),
    (y ∈ xs.foldl (fun acc c => if c ∈ acc then acc else acc ++ [c]) acc ↔
      y ∈ acc ∨ y ∈ xs)
  | [], acc => by simp
  | c :: rest, acc => by
    rw [List.foldl_cons, firstSeen_go_mem y rest]
    by_cases hc : c ∈ acc
    · simp only [if_pos hc, List.mem_cons]
      constructor
      · rintro (h | h)
        · exact .inl h
        · exact .inr (.inr h)
      · rintro (h | rfl | h)
        · exact .inl h
        · exact .inl hc
        · exact .inr h
    · simp only [if_neg hc, List.mem_append, List.mem_singleton, List.mem_cons]
      tauto

theorem firstSeen_mem (y : String) (xs : List String) :
    y ∈ firstSeen xs ↔ y ∈ xs := by
  rw [firstSeen, firstSeen_go_mem]
  simp

theorem firstSeen_go_nodup :
    ∀ (xs acc : List String), acc.Nodup →
    (xs.foldl (fun acc c => if c ∈ acc then acc else acc ++ [c]) acc).Nodup
  | [], acc, h => h
  | c :: rest, acc, h => by
    rw [List.foldl_cons]
    by_cases hc : c ∈ acc
    · rw [if_pos hc]
      exact firstSeen_go_nodup rest acc h
    · rw [if_neg hc]
      exact firstSeen_go_nodup rest (acc ++ [c])
        (h.append (List.nodup_singleton c) (fun x hx hx2 => hc ((List.mem_singleton.mp hx2) ▸ hx)))

theorem firstSeen_nodup (xs : List String) : (firstSeen xs).Nodup :=
  firstSeen_go_nodup xs [] List.nodup_nil

theorem groupFold_spec :
    ∀ (entries processed : List FeedEntry) (m : List (String × List FeedEntry)),
    m.map Prod.fst = firstSeen (processed.map HTMLGenerator.entryCategory) →
    (∀ c, HTMLGenerator.lookupGroup m c =
      if c ∈ m.map Prod.fst
      then some (processed.filter fun e => HTMLGenerator.entryCategory e = c)
      else none) →
    (∀ e ∈ processed, HTMLGenerator.entryCategory e ∈ m.map Prod.fst) →
    ((entries.foldl
        (fun m e => HTMLGenerator.insertGrouped (HTMLGenerator.entryCategory e) e m)
        m).map Prod.fst =
        firstSeen ((processed ++ entries).map HTMLGenerator.entryCategory) ∧
      (∀ c, HTMLGenerator.lookupGroup
          (entries.foldl
            (fun m e => HTMLGenerator.insertGrouped (HTMLGenerator.entryCategory e) e m)
            m) c =
        if c ∈ (entries.foldl
            (fun m e => HTMLGenerator.insertGrouped (HTMLGenerator.entryCategory e) e m)
            m).map Prod.fst
        then some ((processed ++ entries).filter
          fun e => HTMLGenerator.entryCategory e = c)
        else none) ∧
      (∀ e ∈ processed ++ entries, HTMLGenerator.entryCategory e ∈
        (entries.foldl
          (fun m e => HTMLGenerator.insertGrouped (HTMLGenerator.entryCategory e) e m)
          m).map Prod.fst))
  | [], processed, m, h1, h2, h3 => by
    refine ⟨by simpa using h1, fun c => by simpa using h2 c, ?_⟩
    intro e he
    rw [List.append_nil] at he
    simpa using h3 e he
  | e :: rest, processed, m, h1, h2, h3 => by
    rw [List.foldl_cons]
    set key := HTMLGenerator.entryCategory e with hkey
    set m2 := HTMLGenerator.insertGrouped key e m with hm2
    have hkeys2 : m2.map Prod.fst =
        firstSeen ((processed ++ [e]).map HTMLGenerator.entryCategory) := by
      have hmap : (processed ++ [e]).map HTMLGenerator.entryCategory =
          processed.map HTMLGenerator.entryCategory ++ [key] := by
        simp [hkey]
      rw [hm2, insertGrouped_keys, hmap, firstSeen_append_singleton, ← h1]
    have hkeymem : key ∈ m2.map Prod.fst := by
      rw [hm2, insertGrouped_keys]
      by_cases hmem : key ∈ m.map Prod.fst
      · rwa [if_pos hmem]
      · rw [if_neg hmem]
        simp
    have hothers : ∀ c, c ≠ key → (c ∈ m2.map Prod.fst ↔ c ∈ m.map Prod.fst) := by
      intro c hc
      rw [hm2, insertGrouped_keys]
      by_cases hmem : key ∈ m.map Prod.fst
      · rw [if_pos hmem]
      · rw [if_neg hmem]
        simp [hc]
    have hlook2 : ∀ c, HTMLGenerator.lookupGroup m2 c =
        if c ∈ m2.map Prod.fst
        then some ((processed ++ [e]).filter fun x => HTMLGenerator.entryCategory x = c)
        else none := by
      intro c
      rw [hm2, insertGrouped_lookup]
      by_cases hck : c = key
      · subst hck
        rw [if_pos rfl, if_pos hkeymem, h2 key]
        by_cases hmem : key ∈ m.map Prod.fst
        · rw [if_pos hmem]
          simp [List.filter_append, hkey]
        · rw [if_neg hmem]
          have hnil : processed.filter
              (fun x => HTMLGenerator.entryCategory x = key) = [] := by
            rw [List.filter_eq_nil_iff]
            intro a ha
            simp only [decide_eq_true_eq]
            intro hcat
            exact hmem (hcat ▸ h3 a ha)
          simp [List.filter_append, hnil, hkey]
      · rw [if_neg hck, h2 c]
        have hmemiff := hothers c hck
        by_cases hmem : c ∈ m.map Prod.fst
        · rw [if_pos hmem, if_pos (hmemiff.mpr hmem)]
          have : HTMLGenerator.entryCategory e ≠ c := fun hh => hck (hh ▸ hkey)
          simp [List.filter_append, this]
        · rw [if_neg hmem, if_neg (fun hh => hmem (hmemiff.mp hh))]
    have hmem2 : ∀ x ∈ processed ++ [e],
        HTMLGenerator.entryCategory x ∈ m2.map Prod.fst := by
      intro x hx
      rcases List.mem_append.mp hx with hx | hx
      · by_cases hck : HTMLGenerator.entryCategory x = key
        · rw [hck]
          exact hkeymem
        · exact (hothers _ hck).mpr (h3 x hx)
      · rw [List.mem_singleton.mp hx]
        exact hkeymem
    have ih := groupFold_spec rest (processed ++ [e]) m2 hkeys2 hlook2 hmem2
    refine ⟨by simpa using ih.1, fun c => by simpa using ih.2.1 c, ?_⟩
    intro x hx
    have hx2 : x ∈ (processed ++ [e]) ++ rest := by
      simp only [List.append_assoc, List.singleton_append]
      exact hx
    simpa using ih.2.2 x hx2

theorem groupByCategory_spec (entries : List FeedEntry) :
    (HTMLGenerator.groupByCategory entries).map Prod.fst =
      firstSeen (entries.map HTMLGenerator.entryCategory) ∧
    (∀ c, HTMLGenerator.lookupGroup (HTMLGenerator.groupByCategory entries) c =
      if c ∈ (HTMLGenerator.groupByCategory entries).map Prod.fst
      then some (entries.filter fun e => HTMLGenerator.entryCategory e = c)
      else none) ∧
    (∀ e ∈ entries, HTMLGenerator.entryCategory e ∈
      (HTMLGenerator.groupByCategory entries).map Prod.fst) := by
  have h := groupFold_spec entries [] [] (by rfl)
    (fun c => by simp [HTMLGenerator.lookupGroup]) (by simp)
  exact ⟨by simpa using h.1, fun c => by simpa using h.2.1 c, fun e he => by
    simpa using h.2.2 e (by simpa using he)⟩

theorem lookupGroup_none_iff : ∀ (m : List (String × List FeedEntry)) (c : String),
    (HTMLGenerator.lookupGroup m c = none ↔ ¬ c ∈ m.map Prod.fst)
  | [], c => by simp [HTMLGenerator.lookupGroup]
  | (k, es) :: rest, c => by
    by_cases hk : k = c
    · subst hk
      simp [HTMLGenerator.lookupGroup]
    · have hck : ¬ c = k := fun h => hk h.symm
      rw [HTMLGenerator.lookupGroup, if_neg hk, lookupGroup_none_iff rest c]
      simp [List.mem_cons, hck]

theorem lookupGroup_mem : ∀ (m : List (String × List FeedEntry)) (c : String)
    (es : List FeedEntry), (m.map Prod.fst).Nodup → (c, es) ∈ m →
    HTMLGenerator.lookupGroup m c = some es
  | [], _, _, _, hmem => by simp at hmem
  | (k, es2) :: rest, c, es, hnd, hmem => by
    rcases List.mem_cons.mp hmem with heq | hmem2
    · obtain ⟨rfl, rfl⟩ := Prod.mk.inj heq
      rw [HTMLGenerator.lookupGroup, if_pos rfl]
    · by_cases hk : k = c
      · subst hk
        exfalso
        have : k ∈ rest.map Prod.fst := List.mem_map.mpr ⟨(k, es), hmem2, rfl⟩
        exact (List.nodup_cons.mp (by simpa using hnd)).1 this
      · rw [HTMLGenerator.lookupGroup, if_neg hk]
        exact lookupGroup_mem rest c es (List.nodup_cons.mp (by simpa using hnd)).2 hmem2

theorem remove_keys : ∀ (m : List (String × List FeedEntry)) (c : String),
    (m.filter fun p => ¬ p.1 = c).map Prod.fst =
      (m.map Prod.fst).filter (fun k => ¬ k = c)
  | [], _ => rfl
  | (k, es) :: rest, c => by
    rw [List.filter_cons, List.map_cons, List.filter_cons]
    by_cases hk : k = c
    · rw [if_neg (by simp [hk]), if_neg (by simp [hk])]
      exact remove_keys rest c
    · rw [if_pos (by simpa using hk), if_pos (by simpa using hk), List.map_cons,
        remove_keys rest c]

theorem lookupGroup_remove : ∀ (m : List (String × List FeedEntry)) (c c2 : String),
    HTMLGenerator.lookupGroup (m.filter fun p => ¬ p.1 = c) c2 =
      if c2 = c then none else HTMLGenerator.lookupGroup m c2
  | [], c, c2 => by
    by_cases h : c2 = c <;> simp [HTMLGenerator.lookupGroup, h]
  | (k, es) :: rest, c, c2 => by
    by_cases hk : k = c
    · subst hk
      rw [show ((k, es) :: rest).filter (fun p => ¬ p.1 = k) =
          rest.filter (fun p => ¬ p.1 = k) by simp [List.filter_cons]]
      rw [lookupGroup_remove rest k c2]
      by_cases h2 : c2 = k
      · rw [if_pos h2, if_pos h2]
      · rw [if_neg h2, if_neg h2, HTMLGenerator.lookupGroup,
          if_neg (fun h => h2 h.symm)]
    · rw [show ((k, es) :: rest).filter (fun p => ¬ p.1 = c) =
          (k, es) :: rest.filter (fun p => ¬ p.1 = c) by simp [List.filter_cons, hk]]
      by_cases h2 : k = c2
      · subst h2
        rw [HTMLGenerator.lookupGroup, if_pos rfl, if_neg (fun h => hk h),
          HTMLGenerator.lookupGroup, if_pos rfl]
      · rw [HTMLGenerator.lookupGroup, if_neg h2, lookupGroup_remove rest c c2]
        by_cases h3 : c2 = c
        · rw [if_pos h3, if_pos h3]
        · rw [if_neg h3, if_neg h3, HTMLGenerator.lookupGroup, if_neg h2]

theorem prioritySections_pairs : ∀ (order : List String)
    (groups : List (String × List FeedEntry)), (groups.map Prod.fst).Nodup →
    ∀ c es, (c, es) ∈ (HTMLGenerator.prioritySections groups order).1 ++
        (HTMLGenerator.prioritySections groups order).2 →
    HTMLGenerator.lookupGroup groups c = some es
  | [], groups, hnd, c, es, hmem => by
    rw [HTMLGenerator.prioritySections] at hmem
    exact lookupGroup_mem groups c es hnd (by simpa using hmem)
  | o :: rest, groups, hnd, c, es, hmem => by
    rw [HTMLGenerator.prioritySections] at hmem
    cases hlook : HTMLGenerator.lookupGroup groups o with
    | some es2 =>
      rw [hlook] at hmem
      simp only [List.cons_append, List.mem_cons] at hmem
      rcases hmem with heq | hmem2
      · obtain ⟨rfl, rfl⟩ := Prod.mk.inj heq
        exact hlook
      · have hndr : ((groups.filter fun p => ¬ p.1 = o).map Prod.fst).Nodup := by
          rw [remove_keys]
          exact hnd.filter _
        have := prioritySections_pairs rest _ hndr c es hmem2
        rw [lookupGroup_remove] at this
        by_cases hco : c = o
        · rw [if_pos hco] at this
          cases this
        · rwa [if_neg hco] at this
    | none =>
      rw [hlook] at hmem
      exact prioritySections_pairs rest groups hnd c es hmem

theorem prioritySections_keys : ∀ (order : List String)
    (groups : List (String × List FeedEntry)), order.Nodup →
    (groups.map Prod.fst).Nodup →
    ((HTMLGenerator.prioritySections groups order).1 ++
      (HTMLGenerator.prioritySections groups order).2).map Prod.fst =
      order.filter (fun c => (HTMLGenerator.lookupGroup groups c).isSome) ++
      (groups.map Prod.fst).filter (fun k => ¬ k ∈ order)
  | [], groups, _, _ => by
    rw [HTMLGenerator.prioritySections]
    simp
  | o :: rest, groups, hord, hnd => by
    rw [HTMLGenerator.prioritySections]
    cases hlook : HTMLGenerator.lookupGroup groups o with
    | none =>
      have ho : ¬ o ∈ groups.map Prod.fst := (lookupGroup_none_iff groups o).mp hlook
      rw [prioritySections_keys rest groups (List.nodup_cons.mp hord).2 hnd]
      rw [List.filter_cons]
      simp only [hlook, Option.isSome_none, Bool.false_eq_true, if_neg,
        Bool.not_eq_true, ite_false]
      congr 1
      refine List.filter_congr fun k hk => ?_
      have hko : ¬ k = o := fun h => ho (h ▸ hk)
      simp [List.mem_cons, hko]
    | some es =>
      have hndr : ((groups.filter fun p => ¬ p.1 = o).map Prod.fst).Nodup := by
        rw [remove_keys]
        exact hnd.filter _
      rw [List.cons_append, List.map_cons,
        prioritySections_keys rest _ (List.nodup_cons.mp hord).2 hndr]
      rw [List.filter_cons]
      simp only [hlook, Option.isSome_some, ite_true, if_pos]
      rw [List.cons_append]
      congr 1
      congr 1
      · refine List.filter_congr fun k hk => ?_
        have hko : ¬ k = o := fun h => (List.nodup_cons.mp hord).1 (h ▸ hk)
        rw [lookupGroup_remove, if_neg hko]
      · rw [remove_keys, List.filter_filter]
        refine List.filter_congr fun k hk => ?_
        by_cases hko : k = o
        · simp [hko]
        · simp [List.mem_cons, hko]

/-- C9: the single-document renderer's section sequence consists of exactly the
present priority categories (`category_order = ["Weather", "US News"]`, so
Weather precedes US News when both occur) followed by the remaining categories
in first-seen order; each section's entry list is the input filtered to that
category in input order; and an entry with no category lands in the
`"Uncategorized"` section. -/
theorem C9_theorem (entries : List FeedEntry) :
    (∀ c es, (c, es) ∈ HTMLGenerator.sections entries →
      es = entries.filter fun e => HTMLGenerator.entryCategory e = c) ∧
    ((HTMLGenerator.sections entries).map Prod.fst =
      HTMLGenerator.category_order.filter
        (fun c => (HTMLGenerator.lookupGroup (HTMLGenerator.groupByCategory entries)
          c).isSome) ++
      ((HTMLGenerator.groupByCategory entries).map Prod.fst).filter
        (fun c => ¬ c ∈ HTMLGenerator.category_order)) ∧
    ((HTMLGenerator.groupByCategory entries).map Prod.fst =
      firstSeen (entries.map HTMLGenerator.entryCategory)) ∧
    (∀ e ∈ entries, e.category = none →
      ∃ es, ("Uncategorized", es) ∈ HTMLGenerator.sections entries ∧ e ∈ es) := by
  obtain ⟨hkeys, hlook, hmem⟩ := groupByCategory_spec entries
  have hnd : ((HTMLGenerator.groupByCategory entries).map Prod.fst).Nodup := by
    rw [hkeys]
    exact firstSeen_nodup _
  have hpairs : ∀ c es, (c, es) ∈ HTMLGenerator.sections entries →
      es = entries.filter fun e => HTMLGenerator.entryCategory e = c := by
    intro c es hm
    have h1 := prioritySections_pairs HTMLGenerator.category_order
      (HTMLGenerator.groupByCategory entries) hnd c es (by simpa [HTMLGenerator.sections] using hm)
    rw [hlook c] at h1
    by_cases hc : c ∈ (HTMLGenerator.groupByCategory entries).map Prod.fst
    · rw [if_pos hc] at h1
      exact (Option.some.inj h1).symm
    · rw [if_neg hc] at h1
      cases h1
  refine ⟨hpairs, ?_, hkeys, ?_⟩
  · have := prioritySections_keys HTMLGenerator.category_order
      (HTMLGenerator.groupByCategory entries) (by decide) hnd
    simpa [HTMLGenerator.sections] using this
  · intro e he hcat
    have hu : HTMLGenerator.entryCategory e = "Uncategorized" := by
      simp [HTMLGenerator.entryCategory, hcat]
    have hmem2 : "Uncategorized" ∈
        ((HTMLGenerator.sections entries).map Prod.fst) := by
      have hkeys2 := prioritySections_keys HTMLGenerator.category_order
        (HTMLGenerator.groupByCategory entries) (by decide) hnd
      have hin : "Uncategorized" ∈
          (HTMLGenerator.groupByCategory entries).map Prod.fst := hu ▸ hmem e he
      have : "Uncategorized" ∈
          ((HTMLGenerator.groupByCategory entries).map Prod.fst).filter
            (fun c => ¬ c ∈ HTMLGenerator.category_order) := by
        rw [List.mem_filter]
        exact ⟨hin, by decide⟩
      simp only [HTMLGenerator.sections]
      rw [hkeys2]
      exact List.mem_append.mpr (.inr this)
    obtain ⟨p, hp, hp2⟩ := List.mem_map.mp hmem2
    obtain ⟨c, es⟩ := p
    cases hp2
    refine ⟨es, hp, ?_⟩
    rw [hpairs _ _ hp, List.mem_filter]
    exact ⟨he, by simp [hu]⟩

/-- Concrete instantiation of `C9_theorem`: on the sample entries the Weather
section holds exactly the Weather-category entries in input order, and the
category-less entry lands in the `"Uncategorized"` section. -/
theorem C9_witness :
    ([{ title := "wx", content := "c", published := "4", category := some "Weather" }] =
      sampleEntries.filter fun e => HTMLGenerator.entryCategory e = "Weather") ∧
    (∃ es, ("Uncategorized", es) ∈ HTMLGenerator.sections sampleEntries ∧
      ({ title := "nocat", content := "c", published := "3",
         category := none } : FeedEntry) ∈ es) := by
  constructor
  · exact (C9_theorem sampleEntries).1 "Weather" _ (by decide)
  · exact (C9_theorem sampleEntries).2.2.2 _ (by decide) rfl

/-- C10: in the single-document renderer, a body longer than 500 characters is
rendered as its first 500 characters plus an ellipsis marker (and that truncated
form appears in the emitted entry HTML), a body of at most 500 characters is
rendered in full, the "Read more" anchor is emitted exactly when the entry's
`link` is truthy, and the multi-document per-source entry block embeds the
entire body — it never truncates. -/
theorem C10_theorem (e : FeedEntry) :
    (500 < e.content.length →
      HTMLGenerator.contentDisplay e.content = e.content.take 500 ++ "..." ∧
      (e.content.take 500 ++ "...").data <:+: (HTMLGenerator.generate_entry_html e).data) ∧
    (e.content.length ≤ 500 → ¬ e.content = "" →
      HTMLGenerator.contentDisplay e.content = e.content ∧
      e.content.data <:+: (HTMLGenerator.generate_entry_html e).data) ∧
    (¬ HTMLGenerator.linkHtml e = "" ↔ optTruthy e.link = true) ∧
    (∀ dateStr, e.content.data <:+: (HTMLGenerator.feedEntryBlock e dateStr).data) := by
  refine ⟨fun hlong => ?_, fun hshort hne => ?_, ?_, fun dateStr => ?_⟩
  · have hne : ¬ e.content = "" := by
      intro hh
      rw [hh] at hlong
      simp [String.length] at hlong
    have hdisp : HTMLGenerator.contentDisplay e.content = e.content.take 500 ++ "..." := by
      rw [HTMLGenerator.contentDisplay, if_pos hlong]
    refine ⟨hdisp, ?_⟩
    rw [HTMLGenerator.generate_entry_html]
    rw [show HTMLGenerator.strOr e.content "No content available" = e.content by
      simp [HTMLGenerator.strOr, hne]]
    rw [hdisp]
    refine ⟨("\n        <div class=\"entry\">\n            <h2 class=\"entry-title\">" ++
      HTMLGenerator.strOr e.title "No Title" ++
      "</h2>\n            <div class=\"entry-meta\">\n                " ++
      HTMLGenerator.strOr e.published "No date" ++ " | Source: " ++
      HTMLGenerator.optOr e.source "Unknown Source" ++
      "\n            </div>\n            <div class=\"entry-content\">\n                ").data,
      ("\n            </div>\n            " ++ HTMLGenerator.linkHtml e ++
        "\n        </div>\n        ").data, ?_⟩
    simp [List.append_assoc]
  · have hdisp : HTMLGenerator.contentDisplay e.content = e.content := by
      rw [HTMLGenerator.contentDisplay, if_neg (by omega)]
    refine ⟨hdisp, ?_⟩
    rw [HTMLGenerator.generate_entry_html]
    rw [show HTMLGenerator.strOr e.content "No content available" = e.content by
      simp [HTMLGenerator.strOr, hne]]
    rw [hdisp]
    refine ⟨("\n        <div class=\"entry\">\n            <h2 class=\"entry-title\">" ++
      HTMLGenerator.strOr e.title "No Title" ++
      "</h2>\n            <div class=\"entry-meta\">\n                " ++
      HTMLGenerator.strOr e.published "No date" ++ " | Source: " ++
      HTMLGenerator.optOr e.source "Unknown Source" ++
      "\n            </div>\n            <div class=\"entry-content\">\n                ").data,
      ("\n            </div>\n            " ++ HTMLGenerator.linkHtml e ++
        "\n        </div>\n        ").data, ?_⟩
    simp [List.append_assoc]
  · rw [HTMLGenerator.linkHtml]
    by_cases ht : optTruthy e.link = true
    · rw [if_pos ht]
      simp only [ht, iff_true]
      intro hh
      have := congrArg String.data hh
      simp at this
    · rw [if_neg ht]
      simp [ht]
  · rw [HTMLGenerator.feedEntryBlock]
    refine ⟨("\n                <div class=\"entry\">\n                    <h2><a href=\"" ++
      HTMLGenerator.optStr e.link ++ "\" target=\"_blank\">" ++ e.title ++
      "</a></h2>\n                    <div class=\"date\">" ++ dateStr ++
      "</div>\n                    <div class=\"content\">").data,
      ("</div>\n                    <a href=\"" ++ HTMLGenerator.optStr e.link ++
        "\" class=\"read-more\" target=\"_blank\">Read more →</a>\n                </div>\n            ").data,
      ?_⟩
    simp [List.append_assoc]

/-- Concrete instantiation of `C10_theorem`: a 501-character body is cut to 500
plus the marker, a short body passes through whole, a populated link yields the
anchor, and the multi-document block contains the long body in full. -/
theorem C10_witness :
    (HTMLGenerator.contentDisplay longContent = longContent.take 500 ++ "...") ∧
    (HTMLGenerator.contentDisplay "short" = "short") ∧
    (¬ HTMLGenerator.linkHtml
      { title := "t", content := "c", published := "p", link := some "http://x" } = "") ∧
    longContent.data <:+:
      (HTMLGenerator.feedEntryBlock
        { title := "t", content := longContent, published := "p" } "today").data := by
  refine ⟨?_, ?_, ?_, ?_⟩
  · exact ((C10_theorem { title := "t", content := longContent, published := "p" }).1
      (by simp [longContent, String.length])).1
  · exact ((C10_theorem { title := "t", content := "short", published := "p" }).2.1
      (by decide) (by decide)).1
  · exact (C10_theorem
      { title := "t", content := "c", published := "p", link := some "http://x" }).2.2.1.mpr
      (by decide)
  · exact (C10_theorem { title := "t", content := longContent, published := "p" }).2.2.2
      "today"

end News
